import Mathlib

/-!
# Verification of the DraftApply prompt-construction and request-routing pipeline

Shallow embedding of the core of the DraftApply repository:

* the install-token authenticator (`signToken` / `verifyToken`,
  `src/render-proxy/server.js` and the identical copy bundled with the
  recipe-loading server in `src/render-proxy/recipe/index.js`),
* the sample recipe (`buildPrompts`, `cleanFieldLabel`,
  `isDataExtractionQuestion`, `src/render-proxy/recipe/index.js`),
* the request gateway for `POST /api/generate` (payload-shape detection,
  validation, size ceilings, dispatch),
* the extension-side CV context assembler (`getCvContext`,
  content script) and
* the shared prompt builder (`src/shared/prompt-builder.js`).

JavaScript strings are modelled as `List Char` (`Str`), JavaScript numbers
as rationals extended with `NaN`/`±Infinity` (`JSNum`), and dynamically
typed JSON values as `JVal`.  Cryptographic and serialisation collaborators
(HMAC-SHA256, base64url, `JSON.parse`/`JSON.stringify`) are kept as
parameters of the definitions that use them; the theorems state the
assumptions they rely on (e.g. that base64url output contains no `'.'`,
that an HMAC-SHA256 base64url signature is 43 characters long, and that
decode is a left inverse of encode).
-/

set_option maxRecDepth 100000

/-- JavaScript strings, modelled as lists of characters. -/
abbrev Str := List Char

/-- The characters of a Lean string literal, as a `Str`. -/
def str (s : String) : Str := s.data

/-- Whitespace test used for `trim`, `\s` and friends (ASCII whitespace;
JavaScript additionally treats some exotic Unicode spaces as whitespace,
which none of the claims exercise). -/
def isWS (c : Char) : Bool := c.isWhitespace

/-- JavaScript `String.prototype.trim()`: strip leading and trailing
whitespace. -/
def trimStr (s : Str) : Str :=
  ((s.dropWhile isWS).reverse.dropWhile isWS).reverse

/-- JavaScript `hay.includes(needle)`: substring test. -/
def jsIncludes (hay needle : Str) : Bool :=
  needle.isPrefixOf hay ||
    match hay with
    | [] => false
    | _ :: t => jsIncludes t needle

/-- JavaScript `String.prototype.toLowerCase()` (ASCII). -/
def lowerStr (s : Str) : Str := s.map Char.toLower

/-- JavaScript `String.prototype.toUpperCase()` (ASCII). -/
def upperStr (s : Str) : Str := s.map Char.toUpper

/-- JavaScript `s.split(sep)` for a single-character separator:
`"a.b".split('.') = ["a","b"]`, `"".split('.') = [""]`,
`"a.".split('.') = ["a",""]`. -/
def splitChar (sep : Char) : Str → List Str
  | [] => [[]]
  | c :: rest =>
    let r := splitChar sep rest
    if c = sep then [] :: r
    else
      match r with
      | [] => [[c]]
      | h :: t => (c :: h) :: t

/-- JavaScript numbers: rationals extended by the IEEE special values the
code can observe through `typeof x === 'number'` checks and comparisons. -/
inductive JSNum where
  | real (q : ℚ)
  | nan
  | posInf
  | negInf
deriving DecidableEq, Repr

/-- `x < (n : Int)` on a JavaScript number (`NaN` compares false). -/
def JSNum.ltInt : JSNum → Int → Bool
  | .real q, n => decide (q < (n : ℚ))
  | .nan, _ => false
  | .posInf, _ => false
  | .negInf, _ => true

/-- `x > (n : Int)` on a JavaScript number (`NaN` compares false). -/
def JSNum.gtInt : JSNum → Int → Bool
  | .real q, n => decide ((n : ℚ) < q)
  | .nan, _ => false
  | .posInf, _ => true
  | .negInf, _ => false

/-- Dynamically-typed JSON/JavaScript values, as far as the embedded code
inspects them (`typeof` checks, truthiness, `.length`). -/
inductive JVal where
  | vstr (s : Str)
  | vnum (n : JSNum)
  | vbool (b : Bool)
  | vnull
  | varr (n : Nat)
deriving DecidableEq, Repr

/-- JavaScript truthiness of a `JVal` (`''`, `0`, `NaN`, `false`, `null`
are falsy; arrays and every other object are truthy). -/
def JVal.truthy : JVal → Bool
  | .vstr s => !s.isEmpty
  | .vnum (.real q) => decide (q ≠ 0)
  | .vnum .nan => false
  | .vnum _ => true
  | .vbool b => b
  | .vnull => false
  | .varr _ => true

/-! ## TokenAuthenticator (`src/render-proxy/server.js`, lines 29–64, 103–117)

The decoded JSON payload of an install token.  Each field is `Option JVal`
because `verifyToken` guards every access with a `typeof` check: the field
may be absent or hold a value of any type. -/

structure TokenPayload where
  ver : Option JVal
  iat : Option JVal
  exp : Option JVal
  jti : Option JVal
deriving DecidableEq, Repr

/-- `signToken(payloadObj)` (server.js line 37): the token string is
`base64url(JSON.stringify(payload)) ++ "." ++ base64url(HMAC-SHA256(payloadB64))`.
`enc` stands for `base64url ∘ JSON.stringify` and `mac` for
`base64url ∘ HMAC-SHA256(TOKEN_SECRET, ·)`. -/
def signToken (enc : TokenPayload → Str) (mac : Str → Str)
    (payloadObj : TokenPayload) : Str :=
  let payloadB64 := enc payloadObj
  payloadB64 ++ '.' :: mac payloadB64

/-- The outcome of `verifyToken`: `ok: true` with the payload, or
`ok: false` with a typed reason code. -/
inductive VerifyResult where
  | accept (payload : TokenPayload)            -- { ok: true, payload }
  | reject (reason : Str)                      -- { ok: false, reason }
deriving DecidableEq, Repr

/-- `crypto.timingSafeEqual(a, b)`: compares two equal-length buffers in
constant time, but **throws** `RangeError` when the byte lengths differ.
The throw is modelled as `Except.error`. -/
def timingSafeEqual (a b : Str) : Except Unit Bool :=
  if a.length = b.length then .ok (decide (a = b)) else .error ()

/-- `verifyToken(token)` (server.js lines 43–64).  `mac` recomputes the
base64url HMAC signature of the payload segment; `decode` stands for
`JSON.parse ∘ base64-decode` and returns `none` where the JavaScript code
catches a parse error.  `now = Math.floor(Date.now()/1000)`.  The result is
`Except.error ()` when the function throws (which the source does not
catch). -/
def verifyToken (mac : Str → Str) (decode : Str → Option TokenPayload)
    (now : Int) (token : Option Str) : Except Unit VerifyResult :=
  match token with
  | none => .ok (.reject (str "missing"))
  | some t =>
    if t.isEmpty then .ok (.reject (str "missing"))   -- `!token` is true for ''
    else
      match splitChar '.' t with
      | [payloadB64, sigB64] =>
        let expectedSig := mac payloadB64
        match timingSafeEqual expectedSig sigB64 with
        | .error () => .error ()                       -- uncaught RangeError
        | .ok false => .ok (.reject (str "sig"))
        | .ok true =>
          match decode payloadB64 with
          | none => .ok (.reject (str "payload"))
          | some payload =>
            -- typeof payload.exp !== 'number' || payload.exp < now
            match payload.exp with
            | some (.vnum e) =>
              if e.ltInt now then .ok (.reject (str "expired"))
              else
                -- typeof payload.iat !== 'number' || payload.iat > now + 60
                match payload.iat with
                | some (.vnum i) =>
                  if i.gtInt (now + 60) then .ok (.reject (str "iat"))
                  else
                    -- typeof payload.jti !== 'string' || payload.jti.length < 8
                    match payload.jti with
                    | some (.vstr j) =>
                      if j.length < 8 then .ok (.reject (str "jti"))
                      else .ok (.accept payload)
                    | _ => .ok (.reject (str "jti"))
                | _ => .ok (.reject (str "iat"))
            | _ => .ok (.reject (str "expired"))
      | _ => .ok (.reject (str "format"))

/-- The payload built by `POST /api/register` (server.js lines 103–117):
`{ ver: 1, iat: now, exp: now + 90 days, jti: randomBytes(16).toString('hex') }`. -/
def registerPayload (now : Int) (jti : Str) : TokenPayload :=
  { ver := some (.vnum (.real 1))
    iat := some (.vnum (.real now))
    exp := some (.vnum (.real ((now + 60 * 60 * 24 * 90 : Int) : ℚ)))
    jti := some (.vstr jti) }

/-- A separator-free string splits into a single segment. -/
theorem splitChar_eq_single (sep : Char) (b : Str) (hb : sep ∉ b) :
    splitChar sep b = [b] := by
  induction b with
  | nil => rfl
  | cons c t ih =>
    have hc : ¬ c = sep := fun h => hb (h ▸ List.mem_cons_self c t)
    have ht : sep ∉ t := fun h => hb (List.mem_cons_of_mem c h)
    simp only [splitChar, if_neg hc, ih ht]

/-- `splitChar` recovers the two segments of a token whose segments are
separator-free. -/
theorem splitChar_two_parts (sep : Char) (a b : Str) (ha : sep ∉ a) (hb : sep ∉ b) :
    splitChar sep (a ++ sep :: b) = [a, b] := by
  induction a with
  | nil =>
    simp [splitChar, splitChar_eq_single sep b hb]
  | cons c t ih =>
    have hc : ¬ c = sep := fun h => ha (h ▸ List.mem_cons_self c t)
    have ht : sep ∉ t := fun h => ha (List.mem_cons_of_mem c h)
    simp only [List.cons_append, splitChar, if_neg hc, List.append_eq, ih ht]

/-- A signed token is never the empty string. -/
theorem signToken_not_empty (enc : TokenPayload → Str) (mac : Str → Str)
    (p : TokenPayload) : (signToken enc mac p).isEmpty = false := by
  unfold signToken
  cases enc p <;> rfl

/-- Common reduction: verifying a well-formed signed token at time `t`
reaches the payload checks. -/
theorem verifyToken_signed (enc : TokenPayload → Str) (mac : Str → Str)
    (decode : Str → Option TokenPayload) (t : Int) (p : TokenPayload)
    (hdotE : '.' ∉ enc p) (hdotM : '.' ∉ mac (enc p))
    (hdec : decode (enc p) = some p)
    (e : JSNum) (hexp : p.exp = some (.vnum e)) :
    verifyToken mac decode t (some (signToken enc mac p)) =
      (if e.ltInt t then .ok (.reject (str "expired"))
       else
         match p.iat with
         | some (.vnum i) =>
           if i.gtInt (t + 60) then .ok (.reject (str "iat"))
           else
             match p.jti with
             | some (.vstr j) =>
               if j.length < 8 then .ok (.reject (str "jti"))
               else .ok (.accept p)
             | _ => .ok (.reject (str "jti"))
         | _ => .ok (.reject (str "iat"))) := by
  have hsplit : splitChar '.' (signToken enc mac p) = [enc p, mac (enc p)] :=
    splitChar_two_parts '.' _ _ hdotE hdotM
  simp only [verifyToken, signToken_not_empty, Bool.false_eq_true, if_false, hsplit,
    timingSafeEqual, if_pos rfl, eq_self_iff_true, decide_True, if_true, ite_true,
    hdec, hexp]

/-- **C8** (§8: "For all tokens `t = issue()`, `verify(t).ok == true`
immediately after issuance, and `verify(t).ok == false` once
`now > expiresAt`"): a token issued by `/api/register` at time `now` with a
16-byte hex `jti` verifies successfully at time `now`, and is rejected as
`expired` at every time strictly after `exp = now + 90 days`.  `enc`, `mac`
and `decode` are the base64url/HMAC/JSON collaborators; the hypotheses say
that their output segments are dot-free (true of base64url) and that
decoding inverts encoding. -/
theorem c8_issue_verify_roundtrip
    (enc : TokenPayload → Str) (mac : Str → Str) (decode : Str → Option TokenPayload)
    (now : Int) (jti : Str)
    (hdotE : '.' ∉ enc (registerPayload now jti))
    (hdotM : '.' ∉ mac (enc (registerPayload now jti)))
    (hdec : decode (enc (registerPayload now jti)) = some (registerPayload now jti))
    (hjti : 8 ≤ jti.length) :
    verifyToken mac decode now (some (signToken enc mac (registerPayload now jti)))
      = .ok (.accept (registerPayload now jti))
    ∧ ∀ later : Int, now + 60 * 60 * 24 * 90 < later →
        verifyToken mac decode later (some (signToken enc mac (registerPayload now jti)))
          = .ok (.reject (str "expired")) := by
  have hred := fun t => verifyToken_signed enc mac decode t (registerPayload now jti)
    hdotE hdotM hdec (.real ((now + 60 * 60 * 24 * 90 : Int) : ℚ)) rfl
  constructor
  · rw [hred now]
    have h1 : JSNum.ltInt (.real ((now + 60 * 60 * 24 * 90 : Int) : ℚ)) now = false := by
      simp only [JSNum.ltInt, decide_eq_false_iff_not]
      push_cast
      linarith
    have h2 : JSNum.gtInt (.real now) (now + 60) = false := by
      simp only [JSNum.gtInt, decide_eq_false_iff_not]
      push_cast
      linarith
    have h3 : ¬ jti.length < 8 := by omega
    simp only [registerPayload, h1, Bool.false_eq_true, if_false, h2, if_neg h3]
  · intro later hlater
    rw [hred later]
    have h1 : JSNum.ltInt (.real ((now + 60 * 60 * 24 * 90 : Int) : ℚ)) later = true := by
      simp only [JSNum.ltInt, decide_eq_true_eq]
      exact_mod_cast hlater
    simp only [h1, if_true, ite_true]

/-- **C9** (implicit, from `verifyToken` lines 51–63): verification never
inspects the `ver` field.  Any correctly signed two-segment token whose
payload has a numeric `exp` not in the past, a numeric `iat` at most 60
seconds in the future and a string `jti` of length at least 8 is accepted,
whatever the `ver` field holds — including its complete absence (the
`payload` below is arbitrary in its `ver` component). -/
theorem c9_ver_field_never_inspected
    (mac : Str → Str) (decode : Str → Option TokenPayload) (now : Int)
    (payloadB64 sigB64 : Str) (payload : TokenPayload)
    (hdotP : '.' ∉ payloadB64) (hdotS : '.' ∉ sigB64)
    (hsig : mac payloadB64 = sigB64)
    (hdec : decode payloadB64 = some payload)
    (e : JSNum) (hexp : payload.exp = some (.vnum e)) (he : e.ltInt now = false)
    (i : JSNum) (hiat : payload.iat = some (.vnum i)) (hi : i.gtInt (now + 60) = false)
    (j : Str) (hjti : payload.jti = some (.vstr j)) (hj : 8 ≤ j.length) :
    verifyToken mac decode now (some (payloadB64 ++ '.' :: sigB64))
      = .ok (.accept payload) := by
  have hne : (payloadB64 ++ '.' :: sigB64).isEmpty = false := by
    cases payloadB64 <;> rfl
  have hsplit : splitChar '.' (payloadB64 ++ '.' :: sigB64) = [payloadB64, sigB64] :=
    splitChar_two_parts '.' _ _ hdotP hdotS
  have hj' : ¬ j.length < 8 := by omega
  simp only [verifyToken, hne, Bool.false_eq_true, if_false, hsplit, timingSafeEqual,
    hsig, if_pos rfl, eq_self_iff_true, decide_True, if_true, ite_true, hdec, hexp,
    he, hiat, hi, hjti, if_neg hj']

/-! Concrete stand-ins for the base64url/HMAC/JSON collaborators, used to
evaluate the token code on explicit inputs.  `macDemo` returns a 43-character
string, the length of every base64url-encoded (unpadded) HMAC-SHA256
digest. -/

/-- Equality of `verifyToken` outcomes is decidable (needed to evaluate the
token code on concrete inputs). -/
instance : DecidableEq (Except Unit VerifyResult) := fun a b =>
  match a, b with
  | .error (), .error () => isTrue rfl
  | .error (), .ok _ => isFalse (fun h => Except.noConfusion h)
  | .ok _, .error () => isFalse (fun h => Except.noConfusion h)
  | .ok x, .ok y =>
    match decEq x y with
    | isTrue h => isTrue (congrArg Except.ok h)
    | isFalse h => isFalse (fun hh => h (by injection hh))

/-- A demo `jti`: 16 random bytes hex-encoded are 32 characters. -/
def jtiDemo : Str := str "0123456789abcdef0123456789abcdef"

/-- Demo payload encoder (stands for `base64url ∘ JSON.stringify`). -/
def encDemo : TokenPayload → Str := fun _ => str "payload"

/-- Demo signature function: a constant 43-character base64url string
(every real HMAC-SHA256 base64url signature has length 43). -/
def macDemo : Str → Str := fun _ => List.replicate 43 'A'

/-- Demo payload decoder, a left inverse of `encDemo` on the issued
payload. -/
def decodeDemo : Str → Option TokenPayload := fun s =>
  if s = str "payload" then some (registerPayload 1000 jtiDemo) else none

/-- **C1** (§4.1/§8: tampering with either segment always yields
`ok == false` with reason `sig`; malformed input fails closed, never throws
uncaught): **the code violates this**.  A validly issued token verifies,
but altering its signature segment by appending one character makes
`crypto.timingSafeEqual` throw an uncaught `RangeError` (the two buffers
then have lengths 43 and 44), so `verifyToken` neither returns
`{ok:false, reason:'sig'}` nor any rejection result — it throws
(`Except.error`). -/
theorem c1_tampered_signature_throws :
    verifyToken macDemo decodeDemo 1000
        (some (signToken encDemo macDemo (registerPayload 1000 jtiDemo)))
      = .ok (.accept (registerPayload 1000 jtiDemo))
    ∧ verifyToken macDemo decodeDemo 1000
        (some (str "payload" ++ '.' :: (List.replicate 43 'A' ++ ['A'])))
      = .error () := by
  constructor
  · decide
  · decide

/-- Witness for `c8_issue_verify_roundtrip` at the demo collaborators:
the token issued at time 1000 verifies at time 1000 and is rejected as
expired at time 10^9 (well past `1000 + 90 days = 7777000`). -/
theorem c8_issue_verify_roundtrip_witness :
    verifyToken macDemo decodeDemo 1000
        (some (signToken encDemo macDemo (registerPayload 1000 jtiDemo)))
      = .ok (.accept (registerPayload 1000 jtiDemo))
    ∧ verifyToken macDemo decodeDemo (10 ^ 9)
        (some (signToken encDemo macDemo (registerPayload 1000 jtiDemo)))
      = .ok (.reject (str "expired")) := by
  have h := c8_issue_verify_roundtrip encDemo macDemo decodeDemo 1000 jtiDemo
    (by decide) (by decide) (by decide) (by decide)
  exact ⟨h.1, h.2 (10 ^ 9) (by norm_num)⟩

/-- A payload with **no** `ver` field at all (and otherwise valid claims),
for the `c9` witness. -/
def noVerPayload : TokenPayload :=
  { ver := none
    iat := some (.vnum (.real 0))
    exp := some (.vnum (.real 2000))
    jti := some (.vstr jtiDemo) }

/-- Demo decoder returning the `ver`-less payload. -/
def decodeNoVer : Str → Option TokenPayload := fun _ => some noVerPayload

/-- Witness for `c9_ver_field_never_inspected`: a signed token whose payload
lacks `ver` entirely is accepted. -/
theorem c9_ver_field_never_inspected_witness :
    verifyToken macDemo decodeNoVer 1000
        (some (str "p" ++ '.' :: List.replicate 43 'A'))
      = .ok (.accept noVerPayload) :=
  c9_ver_field_never_inspected macDemo decodeNoVer 1000 (str "p")
    (List.replicate 43 'A') noVerPayload (by decide) (by decide) (by decide)
    (by decide) (.real 2000) (by decide) (by decide) (.real 0) (by decide)
    (by decide) jtiDemo (by decide) (by decide)

/-! ## Recipe module (`src/render-proxy/recipe/index.js`)

Small regex combinators.  Every pattern in the source is an anchored
sequence of case-insensitive literals, `\s*`/`\s+` gaps and optional
groups; since the token after a gap never begins with whitespace, the
greedy whitespace drop is exact. -/

/-- `/^lit/`-style case-insensitive literal: strip `lit` from the front of
`s`, returning the remainder. -/
def stripLitCI (lit s : Str) : Option Str :=
  if lowerStr (s.take lit.length) = lowerStr lit then some (s.drop lit.length)
  else none

/-- Try a list of alternative literals in order (`(a|b|c)` at the head). -/
def stripAnyLitCI (lits : List Str) (s : Str) : Option Str :=
  match lits with
  | [] => none
  | l :: ls => stripLitCI l s <|> stripAnyLitCI ls s

/-- `\s*`: greedy whitespace skip. -/
def wsDrop (s : Str) : Str := s.dropWhile isWS

/-- `\s+`: at least one whitespace character, then greedy skip. -/
def wsDrop1 (s : Str) : Option Str :=
  match s with
  | c :: t => if isWS c then some (t.dropWhile isWS) else none
  | [] => none

/-- `/^lit$/i`: the whole string is the literal. -/
def exactCI (lit s : Str) : Bool := stripLitCI lit s = some []

/-- `/^lit/i`: the string starts with the literal. -/
def prefixCI (lit s : Str) : Bool := (stripLitCI lit s).isSome

/-- Trailing required-marker characters, `/[*:?∗✱]+$/`
(recipe/index.js line 37). -/
def isMark (c : Char) : Bool :=
  c = '*' || c = ':' || c = '?' || c = '∗' || c = '✱'

/-- `.replace(/[*:?∗✱]+$/g, '')`: drop the maximal trailing run
of marker characters. -/
def stripTrailingMarks (s : Str) : Str :=
  (s.reverse.dropWhile isMark).reverse

/-- `.replace(/^(please\s+(enter|provide|input|type|specify)\s+(your\s+)?)/i, '')`. -/
def stripPlease (s : Str) : Str :=
  match stripLitCI (str "please") s with
  | none => s
  | some r1 =>
    match wsDrop1 r1 with
    | none => s
    | some r2 =>
      match stripAnyLitCI
          [str "enter", str "provide", str "input", str "type", str "specify"] r2 with
      | none => s
      | some r3 =>
        match wsDrop1 r3 with
        | none => s
        | some r4 =>
          -- greedy optional (your\s+)?
          match stripLitCI (str "your") r4 with
          | some r5 =>
            match wsDrop1 r5 with
            | some r6 => r6
            | none => r4
          | none => r4

/-- `.replace(/^(enter\s+(your\s+)?)/i, '')`. -/
def stripEnter (s : Str) : Str :=
  match stripLitCI (str "enter") s with
  | none => s
  | some r1 =>
    match wsDrop1 r1 with
    | none => s
    | some r2 =>
      match stripLitCI (str "your") r2 with
      | some r3 =>
        match wsDrop1 r3 with
        | some r4 => r4
        | none => r2
      | none => r2

/-- `.replace(/^(your\s+)/i, '')`. -/
def stripYour (s : Str) : Str :=
  match stripLitCI (str "your") s with
  | none => s
  | some r1 =>
    match wsDrop1 r1 with
    | some r2 => r2
    | none => s

/-- `cleanFieldLabel(raw)` (recipe/index.js lines 34–42, and the identical
engine-side copy in the recipe-loading server): trim, strip trailing
required markers, strip leading filler phrases, trim. -/
def cleanFieldLabel (raw : Str) : Str :=
  trimStr (stripYour (stripEnter (stripPlease (stripTrailingMarks (trimStr raw)))))

/-- The 25 anchored data-extraction patterns (recipe/index.js lines 49–60),
in source order. -/
def dataPatterns : List (Str → Bool) :=
  [ -- /^(full\s*)?name$/i
    fun q => (match stripLitCI (str "full") q with
      | some r => exactCI (str "name") (wsDrop r)
      | none => false) || exactCI (str "name") q
  , -- /^(first|last|middle|legal|preferred)\s*name$/i
    fun q => [str "first", str "last", str "middle", str "legal", str "preferred"].any
      (fun w => match stripLitCI w q with
        | some r => exactCI (str "name") (wsDrop r)
        | none => false)
  , -- /^name\s*(first|last|middle|legal)?$/i
    fun q => match stripLitCI (str "name") q with
      | some r =>
        let r2 := wsDrop r
        r2.isEmpty || [str "first", str "last", str "middle", str "legal"].any
          (fun w => exactCI w r2)
      | none => false
  , -- /^linkedin/i
    fun q => prefixCI (str "linkedin") q
  , -- /^(email|e-mail)/i
    fun q => prefixCI (str "email") q || prefixCI (str "e-mail") q
  , -- /^phone/i
    fun q => prefixCI (str "phone") q
  , -- /^(mobile|cell)/i
    fun q => prefixCI (str "mobile") q || prefixCI (str "cell") q
  , -- /^address/i
    fun q => prefixCI (str "address") q
  , -- /^(city|state|zip|postal|country)/i
    fun q => [str "city", str "state", str "zip", str "postal", str "country"].any
      (fun w => prefixCI w q)
  , -- /^location$/i
    fun q => exactCI (str "location") q
  , -- /^website/i
    fun q => prefixCI (str "website") q
  , -- /^(personal\s*)?portfolio/i
    fun q => prefixCI (str "portfolio") q ||
      (match stripLitCI (str "personal") q with
        | some r => prefixCI (str "portfolio") (wsDrop r)
        | none => false)
  , -- /^github/i
    fun q => prefixCI (str "github") q
  , -- /^twitter/i
    fun q => prefixCI (str "twitter") q
  , -- /^(current\s*)?(job\s*)?title$/i
    fun q =>
      (match stripLitCI (str "current") q with
        | some r => [wsDrop r, q]
        | none => [q]).any fun q1 =>
        (match stripLitCI (str "job") q1 with
          | some r => [wsDrop r, q1]
          | none => [q1]).any fun q2 => exactCI (str "title") q2
  , -- /^(current\s*)?company$/i
    fun q => exactCI (str "company") q ||
      (match stripLitCI (str "current") q with
        | some r => exactCI (str "company") (wsDrop r)
        | none => false)
  , -- /^(current\s*)?employer$/i
    fun q => exactCI (str "employer") q ||
      (match stripLitCI (str "current") q with
        | some r => exactCI (str "employer") (wsDrop r)
        | none => false)
  , -- /^(your\s*)?(date\s*of\s*)?birth/i
    fun q =>
      (match stripLitCI (str "your") q with
        | some r => [wsDrop r, q]
        | none => [q]).any fun q1 =>
        (match stripLitCI (str "date") q1 with
          | some r =>
            (match stripLitCI (str "of") (wsDrop r) with
              | some r2 => [wsDrop r2, q1]
              | none => [q1])
          | none => [q1]).any fun q2 => prefixCI (str "birth") q2
  , -- /^nationality$/i
    fun q => exactCI (str "nationality") q
  , -- /^visa\s*status$/i
    fun q => match stripLitCI (str "visa") q with
      | some r => exactCI (str "status") (wsDrop r)
      | none => false
  , -- /^work\s*authori[sz]ation$/i
    fun q => match stripLitCI (str "work") q with
      | some r => exactCI (str "authorisation") (wsDrop r)
          || exactCI (str "authorization") (wsDrop r)
      | none => false
  , -- /^salary/i
    fun q => prefixCI (str "salary") q
  , -- /^notice\s*period$/i
    fun q => match stripLitCI (str "notice") q with
      | some r => exactCI (str "period") (wsDrop r)
      | none => false
  , -- /^availability$/i
    fun q => exactCI (str "availability") q
  , -- /^start\s*date$/i
    fun q => match stripLitCI (str "start") q with
      | some r => exactCI (str "date") (wsDrop r)
      | none => false
  ]

/-- `isDataExtractionQuestion(question)` (recipe/index.js lines 47–62):
clean the label, then test the fixed pattern list. -/
def isDataExtractionQuestion (question : Str) : Bool :=
  let q := cleanFieldLabel question
  dataPatterns.any (fun p => p q)

/-- JavaScript truthiness filter on an optional string field
(`x || undefined`, `if (x)`): an empty string is falsy. -/
def strTruthy : Option Str → Option Str
  | some s => if s.isEmpty then none else some s
  | none => none

/-- The structured input object handed to `recipe.buildPrompts` by the
gateway (recipe/index.js lines 11–22 and 288–298). -/
structure RecipeInput where
  question : Str
  length : JVal
  cvText : Str
  jobTitle : Option Str
  company : Option Str
  jobDescription : Option Str
  requirements : Option (List Str)
  pageUrl : Option Str
  platform : Option Str

/-- The bundled recipe's return value
`{ systemPrompt, userPrompt, temperature }`. -/
structure BuiltPrompts where
  systemPrompt : Str
  userPrompt : Str
  temperature : ℚ

/-- The data-extraction system prompt literal (recipe/index.js line 79). -/
def extractionSystemPrompt : Str :=
  str "You are a data extraction assistant. Extract ONLY the requested information from the CV.\n\nRULES:\n- Return ONLY the exact value requested, nothing else\n- No sentences, no explanations, no formatting\n- If the information is not found, respond with: \"Not found in CV\"\n- For URLs, return the full URL\n- For names, return just the name\n- For phone numbers, include country code if present"

/-- The general-answer system prompt literal (recipe/index.js lines 92–98). -/
def generalSystemPrompt : Str :=
  str "You are a career coach helping a candidate write answers to job application questions.\n\nRules:\n1. Write in first person as the candidate.\n2. Use specific examples from the CV when possible.\n3. Do not invent facts not present in the CV.\n4. Sound natural and human."

/-- `{short,medium,long}[length] || '100-150 words'`
(recipe/index.js lines 86–90): a non-string or unknown key falls back. -/
def lengthSpecOf : JVal → Str
  | .vstr s =>
    if s = str "short" then str "50-80 words"
    else if s = str "medium" then str "100-150 words"
    else if s = str "long" then str "200-300 words"
    else str "100-150 words"
  | _ => str "100-150 words"

/-- The job-context portion of the general-answer user prompt
(recipe/index.js lines 102–115): present only when `jobDescription` is
truthy; `Position:`/`Company:` lines only when those fields are truthy;
at most the first 8 requirements. -/
def jobBlockOf (input : RecipeInput) : Str :=
  match strTruthy input.jobDescription with
  | some jobDescription =>
    str "## Job Description\n"
    ++ (match strTruthy input.jobTitle with
        | some jobTitle => str "Position: " ++ jobTitle ++ str "\n"
        | none => [])
    ++ (match strTruthy input.company with
        | some company => str "Company: " ++ company ++ str "\n"
        | none => [])
    ++ jobDescription.take 4000 ++ str "\n\n"
    ++ (match input.requirements with
        | some requirements =>
          if 0 < requirements.length then
            str "Key requirements:\n"
            ++ (requirements.take 8).foldl
                (fun acc req => acc ++ str "- " ++ req ++ str "\n") []
            ++ str "\n"
          else []
        | none => [])
  | none => []

/-- `buildPrompts(input)` — the bundled sample recipe
(recipe/index.js lines 64–121). -/
def buildPrompts (input : RecipeInput) : BuiltPrompts :=
  let question := input.question
  let cvText := input.cvText
  if isDataExtractionQuestion question then
    -- data-extraction shortcut
    let cleanQ := cleanFieldLabel question
    { systemPrompt := extractionSystemPrompt
      userPrompt := str "CV:\n" ++ cvText.take 2500 ++ str "\n\nExtract: " ++ cleanQ
        ++ str "\n\nReturn ONLY the value, nothing else."
      temperature := 1/10 }
  else
    -- general answer
    let lengthSpec := lengthSpecOf input.length
    { systemPrompt := generalSystemPrompt
      userPrompt := str "## CV\n" ++ cvText.take 6000 ++ str "\n\n"
        ++ jobBlockOf input
        ++ str "## Question\n" ++ question ++ str "\n\n"
        ++ str "Write approximately " ++ lengthSpec ++ str ". First person, no preamble."
      temperature := 7/10 }

/-! Length monotonicity of the label-cleaning pipeline, needed to bound the
data-extraction user prompt. -/

theorem length_dropWhile_le (p : Char → Bool) (l : Str) :
    (l.dropWhile p).length ≤ l.length := by
  induction l with
  | nil => simp
  | cons c t ih =>
    by_cases h : p c
    · simp only [List.dropWhile, h, List.length_cons]
      omega
    · simp [List.dropWhile, h]

theorem trimStr_length_le (s : Str) : (trimStr s).length ≤ s.length := by
  unfold trimStr
  calc ((s.dropWhile isWS).reverse.dropWhile isWS).reverse.length
      = ((s.dropWhile isWS).reverse.dropWhile isWS).length := List.length_reverse _
    _ ≤ (s.dropWhile isWS).reverse.length := length_dropWhile_le _ _
    _ = (s.dropWhile isWS).length := List.length_reverse _
    _ ≤ s.length := length_dropWhile_le _ _

theorem stripTrailingMarks_length_le (s : Str) :
    (stripTrailingMarks s).length ≤ s.length := by
  unfold stripTrailingMarks
  calc (s.reverse.dropWhile isMark).reverse.length
      = (s.reverse.dropWhile isMark).length := List.length_reverse _
    _ ≤ s.reverse.length := length_dropWhile_le _ _
    _ = s.length := List.length_reverse _

theorem stripLitCI_length_le (lit s r : Str) (h : stripLitCI lit s = some r) :
    r.length ≤ s.length := by
  unfold stripLitCI at h
  split at h
  · cases h
    simp [List.length_drop]
  · cases h

theorem stripAnyLitCI_length_le (lits : List Str) (s r : Str)
    (h : stripAnyLitCI lits s = some r) : r.length ≤ s.length := by
  induction lits with
  | nil => cases h
  | cons l ls ih =>
    unfold stripAnyLitCI at h
    rcases ho : stripLitCI l s with _ | r'
    · rw [ho, Option.none_orElse] at h
      exact ih h
    · rw [ho, Option.some_orElse] at h
      cases h
      exact stripLitCI_length_le l s r ho

theorem wsDrop1_length_le (s r : Str) (h : wsDrop1 s = some r) :
    r.length ≤ s.length := by
  cases s with
  | nil => cases h
  | cons c t =>
    unfold wsDrop1 at h
    by_cases hw : isWS c
    · simp only [hw, if_true, ite_true, Option.some.injEq] at h
      subst h
      have := length_dropWhile_le isWS t
      simp only [List.length_cons]
      omega
    · simp [hw] at h

theorem wsDrop_length_le (s : Str) : (wsDrop s).length ≤ s.length :=
  length_dropWhile_le isWS s

theorem stripPlease_length_le (s : Str) : (stripPlease s).length ≤ s.length := by
  unfold stripPlease
  split
  · exact le_rfl
  next r1 h1 =>
    split
    · exact le_rfl
    next r2 h2 =>
      split
      · exact le_rfl
      next r3 h3 =>
        split
        · exact le_rfl
        next r4 h4 =>
          have l1 := stripLitCI_length_le _ _ _ h1
          have l2 := wsDrop1_length_le _ _ h2
          have l3 := stripAnyLitCI_length_le _ _ _ h3
          have l4 := wsDrop1_length_le _ _ h4
          split
          next r5 h5 =>
            have l5 := stripLitCI_length_le _ _ _ h5
            split
            next r6 h6 =>
              have l6 := wsDrop1_length_le _ _ h6
              omega
            · omega
          · omega

theorem stripEnter_length_le (s : Str) : (stripEnter s).length ≤ s.length := by
  unfold stripEnter
  split
  · exact le_rfl
  next r1 h1 =>
    split
    · exact le_rfl
    next r2 h2 =>
      have l1 := stripLitCI_length_le _ _ _ h1
      have l2 := wsDrop1_length_le _ _ h2
      split
      next r3 h3 =>
        have l3 := stripLitCI_length_le _ _ _ h3
        split
        next r4 h4 =>
          have l4 := wsDrop1_length_le _ _ h4
          omega
        · omega
      · omega

theorem stripYour_length_le (s : Str) : (stripYour s).length ≤ s.length := by
  unfold stripYour
  split
  · exact le_rfl
  next r1 h1 =>
    split
    next r2 h2 =>
      have l1 := stripLitCI_length_le _ _ _ h1
      have l2 := wsDrop1_length_le _ _ h2
      omega
    · exact le_rfl

theorem cleanFieldLabel_length_le (q : Str) :
    (cleanFieldLabel q).length ≤ q.length := by
  unfold cleanFieldLabel
  calc (trimStr (stripYour (stripEnter (stripPlease (stripTrailingMarks (trimStr q)))))).length
      ≤ (stripYour (stripEnter (stripPlease (stripTrailingMarks (trimStr q))))).length :=
        trimStr_length_le _
    _ ≤ (stripEnter (stripPlease (stripTrailingMarks (trimStr q)))).length :=
        stripYour_length_le _
    _ ≤ (stripPlease (stripTrailingMarks (trimStr q))).length := stripEnter_length_le _
    _ ≤ (stripTrailingMarks (trimStr q)).length := stripPlease_length_le _
    _ ≤ (trimStr q).length := stripTrailingMarks_length_le _
    _ ≤ q.length := trimStr_length_le _

/-- Length of the requirements loop (`for req of requirements.slice(0,8)`):
each entry contributes `"- " + req + "\n"`. -/
theorem length_foldl_reqs (reqs : List Str) (init : Str) :
    (reqs.foldl (fun acc req => acc ++ str "- " ++ req ++ str "\n") init).length
      = init.length + (reqs.map List.length).sum + 3 * reqs.length := by
  induction reqs generalizing init with
  | nil => simp
  | cons r t ih =>
    have h2 : (str "- ").length = 2 := by decide
    have h1 : (str "\n").length = 1 := by decide
    simp only [List.foldl_cons, ih, List.length_append, h2, h1, List.map_cons,
      List.sum_cons, List.length_cons]
    omega

/-- Length of an optional string field. -/
def optLen : Option Str → Nat
  | some s => s.length
  | none => 0

/-- Combined length of the first 8 requirement entries. -/
def reqSum : Option (List Str) → Nat
  | some reqs => ((reqs.take 8).map List.length).sum
  | none => 0

/-- The combined length of the fields `buildPrompts` interpolates without
any cap: the question, the truthy jobTitle/company, and the first 8
requirement entries. -/
def extraLen (input : RecipeInput) : Nat :=
  input.question.length + optLen (strTruthy input.jobTitle)
    + optLen (strTruthy input.company) + reqSum input.requirements

theorem jobBlockOf_length_le (input : RecipeInput) :
    (jobBlockOf input).length
      ≤ 4085 + optLen (strTruthy input.jobTitle) + optLen (strTruthy input.company)
          + reqSum input.requirements := by
  unfold jobBlockOf
  rcases hjd : strTruthy input.jobDescription with _ | jd
  · simp
  · have h19 : (str "## Job Description\n").length = 19 := by decide
    have h10 : (str "Position: ").length = 10 := by decide
    have h9 : (str "Company: ").length = 9 := by decide
    have h1 : (str "\n").length = 1 := by decide
    have h2 : (str "\n\n").length = 2 := by decide
    have h18 : (str "Key requirements:\n").length = 18 := by decide
    have hjdl : (jd.take 4000).length ≤ 4000 := by
      rw [List.length_take]; omega
    have hpos : (match strTruthy input.jobTitle with
        | some jobTitle => str "Position: " ++ jobTitle ++ str "\n"
        | none => ([] : Str)).length ≤ 11 + optLen (strTruthy input.jobTitle) := by
      rcases strTruthy input.jobTitle with _ | jt
      · simp [optLen]
      · simp only [optLen, List.length_append, h10, h1]
        omega
    have hcomp : (match strTruthy input.company with
        | some company => str "Company: " ++ company ++ str "\n"
        | none => ([] : Str)).length ≤ 10 + optLen (strTruthy input.company) := by
      rcases strTruthy input.company with _ | co
      · simp [optLen]
      · simp only [optLen, List.length_append, h9, h1]
        omega
    have hreq : (match input.requirements with
        | some requirements =>
          if 0 < requirements.length then
            str "Key requirements:\n"
            ++ (requirements.take 8).foldl
                (fun acc req => acc ++ str "- " ++ req ++ str "\n") []
            ++ str "\n"
          else ([] : Str)
        | none => ([] : Str)).length ≤ 43 + reqSum input.requirements := by
      rcases input.requirements with _ | reqs
      · simp [reqSum]
      · simp only [reqSum]
        by_cases hlen : 0 < reqs.length
        · have htake8 : (reqs.take 8).length ≤ 8 := by
            rw [List.length_take]; omega
          simp only [hlen, if_true, ite_true, List.length_append, h18, h1,
            length_foldl_reqs, List.length_nil]
          omega
        · simp [hlen]
    simp only [List.length_append, h19, h2]
    omega

theorem lengthSpecOf_length_le (v : JVal) : (lengthSpecOf v).length ≤ 13 := by
  cases v with
  | vstr s =>
    simp only [lengthSpecOf]
    split
    · decide
    split
    · decide
    split
    · decide
    · decide
  | vnum n =>
    show (str "100-150 words").length ≤ 13
    decide
  | vbool b =>
    show (str "100-150 words").length ≤ 13
    decide
  | vnull => decide
  | varr n =>
    show (str "100-150 words").length ≤ 13
    decide

/-- **C2 (amended)**: for every valid structured input
(non-empty `question`, `cvText` of length at least 5) **whose un-capped
free-form fields — question, truthy jobTitle and company, and the first 8
requirements entries — total at most 109000 characters**, the bundled
recipe's `buildPrompts` satisfies `10 ≤ systemPrompt.length ≤ 30000` and
`10 ≤ userPrompt.length ≤ 120000`.  (The bound on the un-capped fields is
necessary: see `c2_counterexample` — the recipe caps only `cvText` and
`jobDescription`.) -/
theorem c2_buildPrompts_bounds (input : RecipeInput)
    (_hq : input.question ≠ []) (_hcv : 5 ≤ input.cvText.length)
    (hextra : extraLen input ≤ 109000) :
    10 ≤ (buildPrompts input).systemPrompt.length
    ∧ (buildPrompts input).systemPrompt.length ≤ 30000
    ∧ 10 ≤ (buildPrompts input).userPrompt.length
    ∧ (buildPrompts input).userPrompt.length ≤ 120000 := by
  have hql : input.question.length ≤ extraLen input := by
    unfold extraLen
    omega
  unfold buildPrompts
  by_cases hd : isDataExtractionQuestion input.question
  · simp only [hd, if_true, ite_true]
    have hsys : 10 ≤ extractionSystemPrompt.length
        ∧ extractionSystemPrompt.length ≤ 30000 := by decide
    have hcq := cleanFieldLabel_length_le input.question
    have htake : (input.cvText.take 2500).length ≤ 2500 := by
      rw [List.length_take]; omega
    have h4 : (str "CV:\n").length = 4 := by decide
    have h11 : (str "\n\nExtract: ").length = 11 := by decide
    have h38 : (str "\n\nReturn ONLY the value, nothing else.").length = 38 := by decide
    simp only [List.length_append, h4, h11, h38]
    exact ⟨hsys.1, hsys.2, by omega, by omega⟩
  · simp only [hd, Bool.false_eq_true, if_false, ite_false]
    have hsys : 10 ≤ generalSystemPrompt.length
        ∧ generalSystemPrompt.length ≤ 30000 := by decide
    have hjb := jobBlockOf_length_le input
    have hls := lengthSpecOf_length_le input.length
    have htake : (input.cvText.take 6000).length ≤ 6000 := by
      rw [List.length_take]; omega
    have h6 : (str "## CV\n").length = 6 := by decide
    have h2 : (str "\n\n").length = 2 := by decide
    have h12 : (str "## Question\n").length = 12 := by decide
    have h20 : (str "Write approximately ").length = 20 := by decide
    have h28 : (str ". First person, no preamble.").length = 28 := by decide
    simp only [List.length_append, h6, h2, h12, h20, h28]
    unfold extraLen at hextra hql
    exact ⟨hsys.1, hsys.2, by omega, by omega⟩

/-- A valid structured input (non-empty question, `cvText` of length 5)
with one very long requirements entry: the recipe caps `cvText` and
`jobDescription` but interpolates each of the first 8 requirements —
and the question — without any length cap. -/
def c2CexInput : RecipeInput :=
  { question := str "tell"
    length := .vstr (str "short")
    cvText := str "hello"
    jobTitle := none
    company := none
    jobDescription := some (str "jd")
    requirements := some [List.replicate 120000 'x']
    pageUrl := none
    platform := none }

/-- **C2 counterexample**: the claim "for every valid structured input
`10 ≤ userPrompt.length ≤ 120000`" is false: `c2CexInput` has a non-empty
question and a 5-character `cvText` (so it is valid), yet `buildPrompts`
produces a `userPrompt` longer than 120000 characters (120135, driven by a
single 120000-character requirements entry that is interpolated uncapped). -/
theorem c2_counterexample :
    c2CexInput.question ≠ [] ∧ 5 ≤ c2CexInput.cvText.length
    ∧ 120000 < (buildPrompts c2CexInput).userPrompt.length := by
  refine ⟨by decide, by decide, ?_⟩
  have hd : isDataExtractionQuestion (str "tell") = false := by decide
  have hjb : (jobBlockOf c2CexInput).length = 120045 := by
    have hjd : strTruthy c2CexInput.jobDescription = some (str "jd") := by decide
    have hjt : strTruthy c2CexInput.jobTitle = none := by decide
    have hco : strTruthy c2CexInput.company = none := by decide
    have hreq : c2CexInput.requirements = some [List.replicate 120000 'x'] := rfl
    have htk : (str "jd").take 4000 = str "jd" := by decide
    simp only [jobBlockOf, hjd, hjt, hco, hreq, htk, List.length_cons,
      List.length_nil, Nat.lt_irrefl, List.take_succ_cons, List.take_nil,
      List.foldl_cons, List.foldl_nil, List.nil_append]
    have h19 : (str "## Job Description\n").length = 19 := by decide
    have h2 : (str "\n\n").length = 2 := by decide
    have h18 : (str "Key requirements:\n").length = 18 := by decide
    have h1 : (str "\n").length = 1 := by decide
    have h2' : (str "- ").length = 2 := by decide
    have hjdl : (str "jd").length = 2 := by decide
    simp only [Nat.zero_lt_succ, if_true, ite_true, List.length_append, h19, h2,
      h18, h1, h2', hjdl, List.length_replicate, List.length_nil]
  have hq : c2CexInput.question = str "tell" := rfl
  have hcv : c2CexInput.cvText = str "hello" := rfl
  have hlen : c2CexInput.length = .vstr (str "short") := rfl
  have htk6 : (str "hello").take 6000 = str "hello" := by decide
  have hls : lengthSpecOf (.vstr (str "short")) = str "50-80 words" := by decide
  simp only [buildPrompts, hd, Bool.false_eq_true, if_false, ite_false, hq, hcv,
    hlen, htk6, hls]
  have h6 : (str "## CV\n").length = 6 := by decide
  have h5 : (str "hello").length = 5 := by decide
  have h2 : (str "\n\n").length = 2 := by decide
  have h12 : (str "## Question\n").length = 12 := by decide
  have h4 : (str "tell").length = 4 := by decide
  have h20 : (str "Write approximately ").length = 20 := by decide
  have h11 : (str "50-80 words").length = 11 := by decide
  have h28 : (str ". First person, no preamble.").length = 28 := by decide
  simp only [List.length_append, h6, h5, h2, h12, h4, h20, h11, h28, hjb]
  omega

/-- A small valid structured input for the `c2` witness. -/
def c2WitnessInput : RecipeInput :=
  { question := str "tell me about a challenging project"
    length := .vstr (str "medium")
    cvText := str "hello"
    jobTitle := none
    company := none
    jobDescription := none
    requirements := none
    pageUrl := none
    platform := none }

/-- Witness for `c2_buildPrompts_bounds` at a concrete small input. -/
theorem c2_buildPrompts_bounds_witness :
    10 ≤ (buildPrompts c2WitnessInput).systemPrompt.length
    ∧ (buildPrompts c2WitnessInput).systemPrompt.length ≤ 30000
    ∧ 10 ≤ (buildPrompts c2WitnessInput).userPrompt.length
    ∧ (buildPrompts c2WitnessInput).userPrompt.length ≤ 120000 :=
  c2_buildPrompts_bounds c2WitnessInput (by decide) (by decide) (by decide)

/-- `hay.includes(needle)` holds when `needle` is a prefix of `hay`. -/
theorem jsIncludes_of_isPrefixOf (hay needle : Str)
    (h : needle.isPrefixOf hay = true) : jsIncludes hay needle = true := by
  cases hay with
  | nil =>
    cases needle with
    | nil => rfl
    | cons c t => simp [List.isPrefixOf] at h
  | cons c t => simp only [jsIncludes, h, Bool.true_or]

/-- A string assembled around `n` always `.includes(n)`. -/
theorem jsIncludes_of_decomp (a n b : Str) :
    jsIncludes (a ++ n ++ b) n = true := by
  induction a with
  | nil =>
    simp only [List.nil_append]
    exact jsIncludes_of_isPrefixOf _ _
      (List.isPrefixOf_iff_prefix.mpr (List.prefix_append n b))
  | cons c t ih =>
    simp only [List.cons_append, jsIncludes, List.append_eq, ih, Bool.or_true]

/-! ## ContextAssembler: `getCvContext` (extension content script, lines 49–63) -/

/-- The "middle omitted" marker inserted between head and tail. -/
def snipMarker : Str := str "\n\n...[snip - middle omitted to fit prompt]...\n\n"

/-- The result record of `getCvContext`. -/
structure CvContext where
  text : Str
  strategy : Str
  rawLen : Nat
  headLen : Nat
  tailLen : Nat

/-- `getCvContext(rawText, maxChars)` (content script lines 49–63):
`max = Math.max(500, Number(maxChars) || 0)`; if the CV fits, use it as-is,
else keep `Math.floor(max * 0.6)` head characters and the remaining
`max - headLen` tail characters around the snip marker.
`Math.floor(max * 0.6)` is `max * 6 / 10` in exact arithmetic, which agrees
with the double-precision computation for the caps the callers use
(2500 and 8000). -/
def getCvContext (rawText : Str) (maxChars : Nat) : CvContext :=
  let raw := rawText
  let max := Nat.max 500 maxChars
  if raw.length ≤ max then
    { text := raw, strategy := str "full", rawLen := raw.length,
      headLen := raw.length, tailLen := 0 }
  else
    let headLen := max * 6 / 10
    let tailLen := max - headLen
    let head := raw.take headLen                      -- raw.slice(0, headLen)
    let tail := raw.drop (raw.length - tailLen)       -- raw.slice(-tailLen)
    { text := head ++ snipMarker ++ tail, strategy := str "head_tail",
      rawLen := raw.length, headLen := headLen, tailLen := tailLen }

/-- **C3 counterexample**: the claim fails in two ways.
(1) The cap is clamped to at least 500 (`Math.max(500, ...)`): with
`maxChars = 100` and a 200-character CV, the claim requires the truncated
head+marker+tail form, but the code returns the CV unchanged with no
marker.
(2) "does not contain the omitted middle segment" fails for repetitive
text: with `maxChars = 500` and a 600-character uniform CV, the omitted
middle (characters 300..400) occurs verbatim inside the assembled block. -/
theorem c3_counterexample :
    ((getCvContext (List.replicate 200 'a') 100).text = List.replicate 200 'a'
      ∧ ¬ (List.replicate 200 'a' : Str).length ≤ 100
      ∧ (getCvContext (List.replicate 200 'a') 100).text
          ≠ (List.replicate 200 'a' : Str).take 60 ++ snipMarker
              ++ (List.replicate 200 'a' : Str).drop 160)
    ∧ (let raw : Str := List.replicate 600 'a'
       let middle := (raw.drop 300).take 100
       jsIncludes (getCvContext raw 500).text middle = true) := by
  constructor
  · have htext : (getCvContext (List.replicate 200 'a') 100).text
        = List.replicate 200 'a' := by
      have h : (List.replicate 200 'a' : Str).length ≤ Nat.max 500 100 := by
        simp [List.length_replicate]
      simp [getCvContext, h]
    refine ⟨htext, by decide, ?_⟩
    rw [htext]
    intro hcontr
    have hlen := congrArg List.length hcontr
    have hsnip : snipMarker.length = 47 := by decide
    simp [List.length_append, List.length_replicate, List.length_take,
      List.length_drop, hsnip] at hlen
  · intro raw middle
    have hlen : ¬ (raw.length ≤ Nat.max 500 500) := by
      simp [raw, List.length_replicate]
    have hraw : raw.length = 600 := by simp [raw, List.length_replicate]
    simp only [getCvContext, hlen, if_false, ite_false, hraw]
    have hhead : Nat.max 500 500 * 6 / 10 = 300 := by decide
    have htail : Nat.max 500 500 - 300 = 200 := by decide
    simp only [hhead, htail]
    have h1 : raw.take 300 = List.replicate 300 'a' := by
      simp [raw, List.take_replicate]
    have h2 : raw.drop (600 - 200) = List.replicate 200 'a' := by
      simp [raw, List.drop_replicate]
    have h3 : middle = List.replicate 100 'a' := by
      simp [middle, raw, List.drop_replicate, List.take_replicate]
    rw [h1, h2, h3]
    -- the 100-a middle is an infix of the 300-a head
    have hdecomp : List.replicate 300 'a' ++ snipMarker ++ List.replicate 200 'a'
        = [] ++ List.replicate 100 'a'
            ++ (List.replicate 200 'a' ++ snipMarker ++ List.replicate 200 'a') := by
      have : (300 : Nat) = 100 + 200 := by norm_num
      rw [this, List.replicate_add]
      simp [List.append_assoc]
    rw [hdecomp]
    exact jsIncludes_of_decomp [] _ _

/-- **C3 (amended)**: with the *effective* cap
`max' = Math.max(500, maxChars)` (the code clamps the requested cap to at
least 500): if `cvText.length ≤ max'` the assembled block is exactly
`cvText` with full strategy (no marker inserted); otherwise the block is
exactly the first `⌊max'*0.6⌋` characters, the snip marker, and the last
`max' - ⌊max'*0.6⌋` characters of `cvText` (so its length is
`max' + marker.length`).  The original claim's further assertion that the
block never contains the omitted middle segment is dropped: it is false for
repetitive text (see `c3_counterexample`). -/
theorem c3_head_tail_truncation (raw : Str) (maxChars : Nat) :
    (raw.length ≤ Nat.max 500 maxChars →
      (getCvContext raw maxChars).text = raw
      ∧ (getCvContext raw maxChars).strategy = str "full")
    ∧ (Nat.max 500 maxChars < raw.length →
      (getCvContext raw maxChars).text
        = raw.take (Nat.max 500 maxChars * 6 / 10) ++ snipMarker
            ++ raw.drop (raw.length
                - (Nat.max 500 maxChars - Nat.max 500 maxChars * 6 / 10))
      ∧ (getCvContext raw maxChars).strategy = str "head_tail"
      ∧ (getCvContext raw maxChars).text.length
          = Nat.max 500 maxChars + snipMarker.length
      ∧ (raw.take (Nat.max 500 maxChars * 6 / 10)).length
          = Nat.max 500 maxChars * 6 / 10
      ∧ (raw.drop (raw.length
            - (Nat.max 500 maxChars - Nat.max 500 maxChars * 6 / 10))).length
          = Nat.max 500 maxChars - Nat.max 500 maxChars * 6 / 10) := by
  constructor
  · intro h
    unfold getCvContext
    simp only [h, if_true, ite_true]
    exact ⟨trivial, trivial⟩
  · intro h
    have h' : ¬ (raw.length ≤ Nat.max 500 maxChars) := by omega
    unfold getCvContext
    simp only [h', if_false, ite_false]
    have hsnip : snipMarker.length = 47 := by decide
    refine ⟨trivial, trivial, ?_, ?_, ?_⟩
    · simp only [List.length_append, List.length_take, List.length_drop, hsnip]
      omega
    · rw [List.length_take]
      omega
    · rw [List.length_drop]
      omega

/-- Witness for `c3_head_tail_truncation`: a 5-character CV with cap 2500
round-trips unchanged, and a 600-character CV with cap 500 becomes
head(300) ++ marker ++ tail(200). -/
theorem c3_head_tail_truncation_witness :
    (getCvContext (str "hello") 2500).text = str "hello"
    ∧ (getCvContext (List.replicate 600 'a') 500).text
        = (List.replicate 600 'a' : Str).take 300 ++ snipMarker
            ++ (List.replicate 600 'a' : Str).drop 400 := by
  constructor
  · exact ((c3_head_tail_truncation (str "hello") 2500).1 (by decide)).1
  · have h := ((c3_head_tail_truncation (List.replicate 600 'a') 500).2
      (by simp [List.length_replicate])).1
    simpa [List.length_replicate] using h

/-! ## RequestGateway: `POST /api/generate`
(recipe-loading server, recipe/index.js lines 270–351)

The handler below models the authenticated, configured case (auth middleware
passed, `GROQ_API_KEY`/`TOKEN_SECRET` present), from payload-shape detection
to the dispatch of the upstream model call. -/

/-- What an arbitrary (possibly custom, `RECIPE_PATH`-loaded) recipe
returns: any of the three fields may be absent or hold any value, which is
why the gateway re-validates types. -/
structure RecipeResult where
  systemPrompt : Option JVal
  userPrompt : Option JVal
  temperature : Option JVal

/-- The JSON body of a `POST /api/generate` request.  The free-form string
fields the gateway merely forwards are typed as optional strings; the
fields whose JavaScript type the gateway inspects are `Option JVal`. -/
structure GenBody where
  question : Option JVal
  cvText : Option JVal
  systemPrompt : Option JVal
  userPrompt : Option JVal
  temperature : Option JVal
  length : Option JVal
  jobTitle : Option Str
  company : Option Str
  jobDescription : Option Str
  requirements : Option (List Str)
  pageUrl : Option Str
  platform : Option Str

/-- Handler outcome: the HTTP error responses, or the dispatch of the
upstream model call with the final prompt pair and temperature. -/
inductive GenOutcome where
  | badRequest (msg : Str)                           -- HTTP 400
  | recipeError                                      -- HTTP 500 'Recipe error'
  | payloadTooLarge                                  -- HTTP 413 'Prompt too large'
  | modelCall (systemPrompt userPrompt : Str) (temperature : JSNum)
deriving DecidableEq

/-- The outcome with the forwarded temperature erased, to state that the
temperature never influences acceptance or rejection. -/
inductive OutcomeShape where
  | badRequest (msg : Str)
  | recipeError
  | payloadTooLarge
  | modelCall (systemPrompt userPrompt : Str)
deriving DecidableEq

def shapeOf : GenOutcome → OutcomeShape
  | .badRequest m => .badRequest m
  | .recipeError => .recipeError
  | .payloadTooLarge => .payloadTooLarge
  | .modelCall s u _ => .modelCall s u

/-- `typeof x === 'string' && x.length > 0`. -/
def jvIsNonEmptyString : Option JVal → Bool
  | some (.vstr s) => !s.isEmpty
  | _ => false

/-- `typeof x === 'number' ? x : 0.7` (lines 301 and 309). -/
def tempOrDefault : Option JVal → JSNum
  | some (.vnum n) => n
  | _ => .real (7/10)

/-- `body.length || 'medium'`. -/
def lengthOrMedium : Option JVal → JVal
  | some v => if v.truthy then v else .vstr (str "medium")
  | none => .vstr (str "medium")

/-- The 400 message of the final `else` branch (line 311). -/
def missingPromptMsg : Str :=
  str "Missing prompt data. Send either structured (question + cvText) or legacy (systemPrompt + userPrompt)."

/-- The argument object built for `recipe.buildPrompts` (lines 288–298):
the question is cleaned engine-side, falsy optional fields become
`undefined`. -/
def mkRecipeInput (q cv : Str) (body : GenBody) : RecipeInput :=
  { question := cleanFieldLabel q
    length := lengthOrMedium body.length
    cvText := cv
    jobTitle := strTruthy body.jobTitle
    company := strTruthy body.company
    jobDescription := strTruthy body.jobDescription
    requirements := body.requirements
    pageUrl := strTruthy body.pageUrl
    platform := strTruthy body.platform }

/-- The legacy (raw prompt pass-through) branch and the final 400
(lines 305–312); it reads exactly `body.systemPrompt`, `body.userPrompt`
and `body.temperature`. -/
def legacyStage (systemPrompt userPrompt temperature : Option JVal) :
    (Option JVal × Option JVal × JSNum) ⊕ GenOutcome :=
  match systemPrompt, userPrompt with
  | some (.vstr s), some (.vstr u) =>
    .inl (some (.vstr s), some (.vstr u), tempOrDefault temperature)
  | _, _ => .inr (.badRequest missingPromptMsg)

/-- The structured branch (lines 281–304): validate `cvText`, clean the
question, run the recipe (`none` models a thrown recipe → 500). -/
def structuredStage (recipe : RecipeInput → Option RecipeResult) (q : Str)
    (body : GenBody) : (Option JVal × Option JVal × JSNum) ⊕ GenOutcome :=
  match body.cvText with
  | some (.vstr cv) =>
    if cv.length < 5 then .inr (.badRequest (str "Missing or empty cvText"))
    else
      match recipe (mkRecipeInput q cv body) with
      | none => .inr .recipeError
      | some result =>
        .inl (result.systemPrompt, result.userPrompt,
          tempOrDefault result.temperature)
  | _ => .inr (.badRequest (str "Missing or empty cvText"))

/-- Payload-shape detection (lines 277–312): a non-empty string `question`
selects the structured path, else both legacy prompts select the legacy
path, else 400. -/
def genStage (recipe : RecipeInput → Option RecipeResult) (body : GenBody) :
    (Option JVal × Option JVal × JSNum) ⊕ GenOutcome :=
  match body.question with
  | some (.vstr q) =>
    if q.isEmpty then legacyStage body.systemPrompt body.userPrompt body.temperature
    else structuredStage recipe q body
  | _ => legacyStage body.systemPrompt body.userPrompt body.temperature

/-- Final prompt validation (lines 314–323): 400 below the minima, 413
above the ceilings, else dispatch. -/
def validatePrompts (sv uv : Option JVal) (t : JSNum) : GenOutcome :=
  match sv with
  | some (.vstr s) =>
    if s.length < 10 then .badRequest (str "System prompt too short")
    else
      match uv with
      | some (.vstr u) =>
        if u.length < 10 then .badRequest (str "User prompt too short")
        else if 30000 < s.length ∨ 120000 < u.length then .payloadTooLarge
        else .modelCall s u t
      | _ => .badRequest (str "User prompt too short")
  | _ => .badRequest (str "System prompt too short")

/-- Map the stage result to the final outcome: early-out errors pass
through, a built prompt pair goes to final validation. -/
def finishStage : (Option JVal × Option JVal × JSNum) ⊕ GenOutcome → GenOutcome
  | .inr outcome => outcome
  | .inl (sv, uv, t) => validatePrompts sv uv t

/-- The `POST /api/generate` handler after authentication. -/
def generateHandler (recipe : RecipeInput → Option RecipeResult)
    (body : GenBody) : GenOutcome :=
  finishStage (genStage recipe body)

/-- When the legacy shape is not satisfied, the legacy stage is the final
400. -/
theorem legacyStage_reject (body : GenBody)
    (hno : ¬ ∃ s u : Str, body.systemPrompt = some (.vstr s)
        ∧ body.userPrompt = some (.vstr u)) :
    legacyStage body.systemPrompt body.userPrompt body.temperature
      = .inr (.badRequest missingPromptMsg) := by
  unfold legacyStage
  rcases hs : body.systemPrompt with _ | sv
  · rfl
  · rcases sv with s | n | b | _ | a
    case vstr =>
      rcases hu : body.userPrompt with _ | uv
      · rfl
      · rcases uv with u | n' | b' | _ | a'
        case vstr => exact absurd ⟨s, u, hs, hu⟩ hno
        all_goals rfl
    all_goals rfl

/-- A non-empty list is not `isEmpty`. -/
theorem isEmpty_eq_false_of_ne_nil {q : Str} (h : q ≠ []) : q.isEmpty = false := by
  cases q with
  | nil => exact absurd rfl h
  | cons c t => rfl

/-- **C4** (§3/§8: shape discrimination checks `question` before the legacy
fields; neither shape ⇒ 400): (i) with a non-empty string `question` the
outcome never depends on `systemPrompt`/`userPrompt` — the structured path
wins even when both legacy fields are present; (ii) with a non-empty
`question` and valid `cvText` the recipe is actually consulted (a throwing
recipe turns the outcome into the 500 recipe error); (iii) a body with
neither a non-empty string `question` nor both legacy prompt strings gets
the 400 "Missing prompt data" rejection. -/
theorem c4_payload_shape_detection :
    (∀ (recipe : RecipeInput → Option RecipeResult) (body : GenBody) (q : Str)
        (sp up : Option JVal),
      body.question = some (.vstr q) → q ≠ [] →
      generateHandler recipe { body with systemPrompt := sp, userPrompt := up }
        = generateHandler recipe body)
    ∧ (∀ (body : GenBody) (q cv : Str),
      body.question = some (.vstr q) → q ≠ [] →
      body.cvText = some (.vstr cv) → 5 ≤ cv.length →
      generateHandler (fun _ => none) body = .recipeError)
    ∧ (∀ (recipe : RecipeInput → Option RecipeResult) (body : GenBody),
      jvIsNonEmptyString body.question = false →
      (¬ ∃ s u : Str, body.systemPrompt = some (.vstr s)
          ∧ body.userPrompt = some (.vstr u)) →
      generateHandler recipe body = .badRequest missingPromptMsg) := by
  refine ⟨?_, ?_, ?_⟩
  · intro recipe body q sp up hq hqne
    have hqe : q.isEmpty = false := isEmpty_eq_false_of_ne_nil hqne
    unfold generateHandler genStage structuredStage mkRecipeInput
    simp only [hq, hqe, Bool.false_eq_true, if_false, ite_false]
  · intro body q cv hq hqne hcv hcvlen
    have hqe : q.isEmpty = false := isEmpty_eq_false_of_ne_nil hqne
    have hlt : ¬ cv.length < 5 := by omega
    unfold generateHandler genStage structuredStage
    simp only [hq, hqe, Bool.false_eq_true, if_false, ite_false, hcv, hlt]
    rfl
  · intro recipe body hq hno
    have hleg := legacyStage_reject body hno
    unfold generateHandler genStage
    rcases hqv : body.question with _ | qv
    · rw [hleg]
      rfl
    · rcases qv with q | n | b | _ | a
      case vstr =>
        cases q with
        | nil =>
          simp only [List.isEmpty_nil, if_true, ite_true, hleg]
          rfl
        | cons c t =>
          rw [hqv] at hq
          exact absurd hq (by simp [jvIsNonEmptyString])
      all_goals (rw [hleg]; rfl)

/-- A body with every field absent. -/
def emptyGenBody : GenBody :=
  { question := none, cvText := none, systemPrompt := none, userPrompt := none,
    temperature := none, length := none, jobTitle := none, company := none,
    jobDescription := none, requirements := none, pageUrl := none,
    platform := none }

/-- A minimal structured body (non-empty question, 5-char CV). -/
def structuredBody : GenBody :=
  { emptyGenBody with
    question := some (.vstr (str "tell"))
    cvText := some (.vstr (str "hello")) }

/-- Witness for `c4_payload_shape_detection` at concrete bodies. -/
theorem c4_payload_shape_detection_witness :
    generateHandler (fun _ => none)
        { structuredBody with
          systemPrompt := some (.vstr (str "sys prompt ok"))
          userPrompt := some (.vstr (str "user prompt ok")) }
      = generateHandler (fun _ => none) structuredBody
    ∧ generateHandler (fun _ => none) structuredBody = .recipeError
    ∧ generateHandler (fun _ => none) emptyGenBody
        = .badRequest missingPromptMsg := by
  obtain ⟨h1, h2, h3⟩ := c4_payload_shape_detection
  refine ⟨h1 (fun _ => none) structuredBody (str "tell") _ _ rfl (by decide),
          h2 structuredBody (str "tell") (str "hello") rfl (by decide) rfl (by decide),
          h3 (fun _ => none) emptyGenBody (by decide) ?_⟩
  rintro ⟨s, u, hs, hu⟩
  exact Option.noConfusion hs

/-- **C5 (amended)**: for every authenticated generate request (structured
or legacy, under an arbitrary recipe) whose resulting prompt pair consists
of two strings that pass the minimum-length check (both ≥ 10) and exceeds a
ceiling (`systemPrompt.length > 30000` or `userPrompt.length > 120000`),
the gateway answers 413 — it neither truncates nor dispatches the model
call, and the check applies to whatever the recipe returned, independent of
the recipe's own caps.  (The original claim, without the minimum-length
qualifier, is false: see `c5_counterexample` — an oversized systemPrompt
paired with a too-short userPrompt gets 400, not 413.) -/
theorem c5_size_ceiling_413 (recipe : RecipeInput → Option RecipeResult)
    (body : GenBody) (s u : Str) (t : JSNum)
    (hstage : genStage recipe body = .inl (some (.vstr s), some (.vstr u), t))
    (hs10 : 10 ≤ s.length) (hu10 : 10 ≤ u.length)
    (hbig : 30000 < s.length ∨ 120000 < u.length) :
    generateHandler recipe body = .payloadTooLarge := by
  have hs : ¬ s.length < 10 := by omega
  have hu : ¬ u.length < 10 := by omega
  unfold generateHandler
  rw [hstage]
  unfold finishStage validatePrompts
  simp only [hs, if_false, ite_false, hu, hbig, if_true, ite_true]

/-- A legacy body whose systemPrompt exceeds the 30000 ceiling while its
userPrompt is shorter than 10 characters. -/
def c5CexBody : GenBody :=
  { emptyGenBody with
    systemPrompt := some (.vstr (List.replicate 30001 'a'))
    userPrompt := some (.vstr (str "short")) }

/-- **C5 counterexample**: the claim as stated ("systemPrompt.length >
30000 or userPrompt.length > 120000 ⇒ 413") is false: this legacy request
has a 30001-character systemPrompt, yet the gateway answers 400 ("User
prompt too short"), because the minimum-length checks run before the size
ceiling. -/
theorem c5_counterexample :
    30000 < (List.replicate 30001 'a' : Str).length
    ∧ generateHandler (fun _ => none) c5CexBody
        = .badRequest (str "User prompt too short") := by
  constructor
  · rw [List.length_replicate]
    omega
  · have hs : genStage (fun _ => none) c5CexBody
        = .inl (some (.vstr (List.replicate 30001 'a')), some (.vstr (str "short")),
            tempOrDefault none) := rfl
    unfold generateHandler
    rw [hs]
    unfold finishStage validatePrompts
    have h1 : ¬ (List.replicate 30001 'a' : Str).length < 10 := by
      rw [List.length_replicate]
      omega
    have h2 : (str "short").length < 10 := by decide
    simp only [h1, if_false, ite_false, h2, if_true, ite_true]

/-- Witness for `c5_size_ceiling_413`: a legacy request with a
120001-character userPrompt (and a valid systemPrompt) gets 413. -/
theorem c5_size_ceiling_413_witness :
    generateHandler (fun _ => none)
      { emptyGenBody with
        systemPrompt := some (.vstr (str "sys prompt ok"))
        userPrompt := some (.vstr (List.replicate 120001 'x')) }
      = .payloadTooLarge := by
  refine c5_size_ceiling_413 (fun _ => none) _ (str "sys prompt ok")
    (List.replicate 120001 'x') (tempOrDefault none) rfl (by decide) ?_ ?_
  · rw [List.length_replicate]
    omega
  · right
    rw [List.length_replicate]
    omega

/-- **C6** (§8: a structured request with `cvText.length < 5` — or a
non-string `cvText` — is rejected 400 and never reaches the recipe):
for *every* recipe, a body with a non-empty string question whose `cvText`
is not a string of length ≥ 5 yields the 400 "Missing or empty cvText"
outcome; the outcome is the same for all recipes (in particular for the
always-throwing one), so `buildPrompts` is never invoked. -/
theorem c6_short_cvText_rejected (recipe : RecipeInput → Option RecipeResult)
    (body : GenBody) (q : Str)
    (hq : body.question = some (.vstr q)) (hqne : q ≠ [])
    (hcv : ∀ cv : Str, body.cvText = some (.vstr cv) → cv.length < 5) :
    generateHandler recipe body = .badRequest (str "Missing or empty cvText") := by
  have hqe : q.isEmpty = false := isEmpty_eq_false_of_ne_nil hqne
  unfold generateHandler genStage structuredStage
  simp only [hq, hqe, Bool.false_eq_true, if_false, ite_false]
  rcases hcvv : body.cvText with _ | cvv
  · rfl
  · rcases cvv with cv | n | b | _ | a
    case vstr =>
      have := hcv cv hcvv
      simp only [this, if_true, ite_true]
      rfl
    all_goals rfl

/-- Witness for `c6_short_cvText_rejected`: question "tell", cvText "cv"
(2 < 5 characters) is rejected 400 under the always-throwing recipe. -/
theorem c6_short_cvText_rejected_witness :
    generateHandler (fun _ => none)
      { emptyGenBody with
        question := some (.vstr (str "tell"))
        cvText := some (.vstr (str "cv")) }
      = .badRequest (str "Missing or empty cvText") := by
  refine c6_short_cvText_rejected (fun _ => none) _ (str "tell") rfl (by decide) ?_
  intro cv hcv
  have : cv = str "cv" := by
    have := Option.some.inj hcv
    exact (JVal.vstr.inj this).symm
  rw [this]
  decide

/-- Final validation accepts or rejects identically whatever the
temperature: only the forwarded value differs. -/
theorem validatePrompts_shape (sv uv : Option JVal) (t t' : JSNum) :
    shapeOf (validatePrompts sv uv t) = shapeOf (validatePrompts sv uv t') := by
  unfold validatePrompts
  rcases sv with _ | v
  · rfl
  rcases v with s | n | b | _ | a
  case vstr =>
    by_cases hs : s.length < 10
    · simp [hs]
    rcases uv with _ | w
    · simp [hs]
    rcases w with u | n' | b' | _ | a'
    · by_cases hu : u.length < 10
      · simp [hs, hu]
      by_cases hbig : 30000 < s.length ∨ 120000 < u.length
      · simp [hs, hu, hbig]
      · simp [hs, hu, hbig, shapeOf]
    all_goals simp [hs]
  all_goals rfl

/-- On the legacy path (no non-empty string question, both legacy prompts
strings) the stage is the pass-through triple. -/
theorem genStage_legacy (recipe : RecipeInput → Option RecipeResult)
    (body : GenBody) (s u : Str)
    (hq : jvIsNonEmptyString body.question = false)
    (hs : body.systemPrompt = some (.vstr s))
    (hu : body.userPrompt = some (.vstr u)) :
    genStage recipe body
      = .inl (some (.vstr s), some (.vstr u), tempOrDefault body.temperature) := by
  unfold genStage legacyStage
  rcases hqv : body.question with _ | qv
  · rw [hs, hu]
  · rcases qv with q | n | b | _ | a
    case vstr =>
      cases q with
      | nil =>
        simp only [List.isEmpty_nil, if_true, ite_true]
        rw [hs, hu]
      | cons c t =>
        rw [hqv] at hq
        exact absurd hq (by simp [jvIsNonEmptyString])
    all_goals rw [hs, hu]

/-- In-range prompt pairs are dispatched with the given temperature. -/
theorem validatePrompts_ok (s u : Str) (t : JSNum)
    (h1 : 10 ≤ s.length) (h2 : s.length ≤ 30000)
    (h3 : 10 ≤ u.length) (h4 : u.length ≤ 120000) :
    validatePrompts (some (.vstr s)) (some (.vstr u)) t = .modelCall s u t := by
  unfold validatePrompts
  have hs : ¬ s.length < 10 := by omega
  have hu : ¬ u.length < 10 := by omega
  have hb : ¬ (30000 < s.length ∨ 120000 < u.length) := by omega
  simp only [hs, if_false, ite_false, hu, hb]

/-- **C10** (implicit, from lines 299–301, 305–312 and 325–339):
temperature is never range-validated.
(a) On the legacy path, any `temperature` of JavaScript type number —
including `NaN`, `±Infinity` and values outside `[0, 2]` — is forwarded
unchanged to the upstream call;
(b) any non-number `temperature` (or its absence) is silently replaced by
the default 0.7;
(c) two requests differing only in their `temperature` field get the same
outcome up to the forwarded temperature — no request is ever rejected
because of its temperature;
(d) on the structured path the same rule is applied to the `temperature`
returned by the recipe. -/
theorem c10_temperature_never_validated :
    (∀ (recipe : RecipeInput → Option RecipeResult) (body : GenBody)
        (s u : Str) (n : JSNum),
      jvIsNonEmptyString body.question = false →
      body.systemPrompt = some (.vstr s) → body.userPrompt = some (.vstr u) →
      body.temperature = some (.vnum n) →
      10 ≤ s.length → s.length ≤ 30000 → 10 ≤ u.length → u.length ≤ 120000 →
      generateHandler recipe body = .modelCall s u n)
    ∧ (∀ (recipe : RecipeInput → Option RecipeResult) (body : GenBody)
        (s u : Str),
      jvIsNonEmptyString body.question = false →
      body.systemPrompt = some (.vstr s) → body.userPrompt = some (.vstr u) →
      (∀ n : JSNum, body.temperature ≠ some (.vnum n)) →
      10 ≤ s.length → s.length ≤ 30000 → 10 ≤ u.length → u.length ≤ 120000 →
      generateHandler recipe body = .modelCall s u (.real (7/10)))
    ∧ (∀ (recipe : RecipeInput → Option RecipeResult) (b1 b2 : GenBody),
      b1.question = b2.question → b1.cvText = b2.cvText →
      b1.systemPrompt = b2.systemPrompt → b1.userPrompt = b2.userPrompt →
      b1.length = b2.length → b1.jobTitle = b2.jobTitle →
      b1.company = b2.company → b1.jobDescription = b2.jobDescription →
      b1.requirements = b2.requirements → b1.pageUrl = b2.pageUrl →
      b1.platform = b2.platform →
      shapeOf (generateHandler recipe b1) = shapeOf (generateHandler recipe b2))
    ∧ (∀ (recipe : RecipeInput → Option RecipeResult) (body : GenBody)
        (q cv s u : Str) (result : RecipeResult) (n : JSNum),
      body.question = some (.vstr q) → q ≠ [] →
      body.cvText = some (.vstr cv) → 5 ≤ cv.length →
      recipe (mkRecipeInput q cv body) = some result →
      result.systemPrompt = some (.vstr s) → result.userPrompt = some (.vstr u) →
      result.temperature = some (.vnum n) →
      10 ≤ s.length → s.length ≤ 30000 → 10 ≤ u.length → u.length ≤ 120000 →
      generateHandler recipe body = .modelCall s u n) := by
  refine ⟨?_, ?_, ?_, ?_⟩
  · intro recipe body s u n hq hs hu ht h1 h2 h3 h4
    unfold generateHandler
    rw [genStage_legacy recipe body s u hq hs hu, ht]
    exact validatePrompts_ok s u n h1 h2 h3 h4
  · intro recipe body s u hq hs hu htn h1 h2 h3 h4
    have ht7 : tempOrDefault body.temperature = .real (7/10) := by
      rcases htv : body.temperature with _ | v
      · rfl
      · rcases v with s' | n' | b' | _ | a'
        case vnum => exact absurd htv (htn n')
        all_goals rfl
    unfold generateHandler
    rw [genStage_legacy recipe body s u hq hs hu, ht7]
    exact validatePrompts_ok s u _ h1 h2 h3 h4
  · intro recipe b1 b2 hq hc hs hu hl hjt hco hjd hr hp hpl
    obtain ⟨q1, c1, s1, u1, t1, l1, jt1, co1, jd1, r1, p1, pl1⟩ := b1
    obtain ⟨q2, c2, s2, u2, t2, l2, jt2, co2, jd2, r2, p2, pl2⟩ := b2
    simp only at hq hc hs hu hl hjt hco hjd hr hp hpl
    subst hq hc hs hu hl hjt hco hjd hr hp hpl
    have hleg : ∀ ta tb : Option JVal,
        shapeOf (finishStage (legacyStage s1 u1 ta))
          = shapeOf (finishStage (legacyStage s1 u1 tb)) := by
      intro ta tb
      unfold legacyStage
      rcases s1 with _ | v
      · rfl
      rcases v with s | n | b | _ | a
      case vstr =>
        rcases u1 with _ | w
        · rfl
        rcases w with u' | n' | b' | _ | a'
        case vstr =>
          exact validatePrompts_shape (some (.vstr s)) (some (.vstr u'))
            (tempOrDefault ta) (tempOrDefault tb)
        all_goals rfl
      all_goals rfl
    unfold generateHandler genStage
    rcases q1 with _ | qv
    · exact hleg t1 t2
    rcases qv with q | n | b | _ | a
    case vstr =>
      by_cases he : q.isEmpty
      · simp only [he, if_true, ite_true]
        exact hleg t1 t2
      · simp only [he, Bool.false_eq_true, if_false, ite_false]
        rfl
    all_goals exact hleg t1 t2
  · intro recipe body q cv s u result n hq hqne hcv hcvlen hrec hrs hru hrt
      h1 h2 h3 h4
    have hqe : q.isEmpty = false := isEmpty_eq_false_of_ne_nil hqne
    have hlt : ¬ cv.length < 5 := by omega
    have hstage : genStage recipe body
        = .inl (result.systemPrompt, result.userPrompt,
            tempOrDefault result.temperature) := by
      unfold genStage structuredStage
      simp only [hq, hqe, Bool.false_eq_true, if_false, ite_false, hcv, hlt,
        hrec]
    unfold generateHandler
    rw [hstage, hrs, hru, hrt]
    exact validatePrompts_ok s u n h1 h2 h3 h4

/-- Legacy body with `temperature: NaN` (a JavaScript number). -/
def legacyBodyA : GenBody :=
  { emptyGenBody with
    systemPrompt := some (.vstr (str "sys prompt ok"))
    userPrompt := some (.vstr (str "user prompt ok"))
    temperature := some (.vnum .nan) }

/-- The same body with a non-number `temperature: "hot"`. -/
def legacyBodyB : GenBody :=
  { legacyBodyA with temperature := some (.vstr (str "hot")) }

/-- A recipe returning the far-out-of-range temperature 9000. -/
def hotRecipe : RecipeInput → Option RecipeResult := fun _ =>
  some { systemPrompt := some (.vstr (str "sys prompt ok"))
         userPrompt := some (.vstr (str "user prompt ok"))
         temperature := some (.vnum (.real 9000)) }

/-- Witness for `c10_temperature_never_validated`: `NaN` is forwarded
as-is, `"hot"` falls back to 0.7, the two requests have the same outcome
shape, and a recipe temperature of 9000 is forwarded unchanged. -/
theorem c10_temperature_never_validated_witness :
    generateHandler (fun _ => none) legacyBodyA
      = .modelCall (str "sys prompt ok") (str "user prompt ok") .nan
    ∧ generateHandler (fun _ => none) legacyBodyB
      = .modelCall (str "sys prompt ok") (str "user prompt ok") (.real (7/10))
    ∧ shapeOf (generateHandler (fun _ => none) legacyBodyA)
      = shapeOf (generateHandler (fun _ => none) legacyBodyB)
    ∧ generateHandler hotRecipe structuredBody
      = .modelCall (str "sys prompt ok") (str "user prompt ok") (.real 9000) := by
  obtain ⟨ha, hb, hc, hd⟩ := c10_temperature_never_validated
  exact ⟨ha (fun _ => none) legacyBodyA _ _ .nan (by decide) rfl rfl rfl
      (by decide) (by decide) (by decide) (by decide),
    hb (fun _ => none) legacyBodyB _ _ (by decide) rfl rfl
      (fun n hn => JVal.noConfusion (Option.some.inj hn))
      (by decide) (by decide) (by decide) (by decide),
    hc (fun _ => none) legacyBodyA legacyBodyB rfl rfl rfl rfl rfl rfl rfl rfl
      rfl rfl rfl,
    hd hotRecipe structuredBody (str "tell") (str "hello") _ _ _ (.real 9000)
      rfl (by decide) rfl (by decide) rfl rfl rfl rfl
      (by decide) (by decide) (by decide) (by decide)⟩

/-- Soundness of `jsIncludes`: a hit yields a decomposition. -/
theorem jsIncludes_exists (hay needle : Str) (h : jsIncludes hay needle = true) :
    ∃ x y, hay = x ++ needle ++ y := by
  induction hay with
  | nil =>
    simp only [jsIncludes, Bool.or_false] at h
    have hpre := List.isPrefixOf_iff_prefix.mp h
    have hn : needle = [] := List.prefix_nil.mp hpre
    exact ⟨[], [], by simp [hn]⟩
  | cons c tl ih =>
    simp only [jsIncludes] at h
    rcases Bool.or_eq_true_iff.mp h with hpre | hrec
    · obtain ⟨t, ht⟩ := List.isPrefixOf_iff_prefix.mp hpre
      exact ⟨[], t, by simp [← ht]⟩
    · obtain ⟨x, y, hxy⟩ := ih hrec
      exact ⟨c :: x, y, by simp [hxy]⟩

/-- `includes` is preserved by surrounding context. -/
theorem jsIncludes_mono (p mid s needle : Str) (h : jsIncludes mid needle = true) :
    jsIncludes (p ++ mid ++ s) needle = true := by
  obtain ⟨x, y, hxy⟩ := jsIncludes_exists mid needle h
  have hre : p ++ mid ++ s = (p ++ x) ++ needle ++ (y ++ s) := by
    rw [hxy]
    simp [List.append_assoc]
  rw [hre]
  exact jsIncludes_of_decomp _ _ _

/-! ## Shared PromptBuilder (`src/shared/prompt-builder.js`) -/

/-- Parsed CV sections (`CVParser.parse` output shape, as consumed by
`buildCVContext`). -/
structure Experience where
  title : Str
  company : Str
  dates : Str
  responsibilities : List Str

structure EducationEntry where
  degree : Str
  institution : Str
  dates : Str

structure CVData where
  summary : Str
  experience : List Experience
  skills : List Str
  achievements : List Str
  education : List EducationEntry
  certifications : List Str

/-- The options record passed to `buildPrompt`. -/
structure BuildOptions where
  jobTitle : Option Str
  company : Option Str
  jobDescription : Option Str

/-- A `{words, sentences}` length entry. -/
structure LengthSpec where
  words : Str
  sentences : Str
deriving DecidableEq

/-- `this.responseLengths` (prompt-builder.js lines 79–84): property lookup
by length key (`none` models an absent property). -/
def responseLengths : Str → Option LengthSpec := fun l =>
  if l = str "short" then some ⟨str "50-80", str "2-3"⟩
  else if l = str "medium" then some ⟨str "100-150", str "4-6"⟩
  else if l = str "long" then some ⟨str "200-300", str "8-12"⟩
  else none

/-- `coverLetterLengths` (prompt-builder.js lines 325–329). -/
def coverLetterLengths : Str → Option LengthSpec := fun l =>
  if l = str "short" then some ⟨str "150-220", str "6-10"⟩
  else if l = str "medium" then some ⟨str "250-350", str "10-16"⟩
  else if l = str "long" then some ⟨str "350-500", str "16-24"⟩
  else none

/-- `this.questionTypes` (prompt-builder.js lines 17–77), in insertion
order — `detectQuestionType` iterates `Object.entries` in this order. -/
def questionTypes : List (Str × List Str) :=
  [ (str "cover_letter",
      [str "cover letter", str "coverletter", str "letter of interest",
       str "motivation letter", str "application letter",
       str "write a cover letter", str "write cover letter"])
  , (str "behavioral",
      [str "tell me about a time", str "describe a situation",
       str "give an example", str "how did you handle",
       str "what would you do if", str "have you ever"])
  , (str "technical",
      [str "experience with", str "familiar with", str "technical skills",
       str "programming", str "technology", str "tools", str "systems",
       str "architecture"])
  , (str "leadership",
      [str "leadership", str "managed", str "team", str "mentored",
       str "delegated", str "conflict", str "difficult colleague"])
  , (str "motivation",
      [str "why do you want", str "what interests you",
       str "why are you applying", str "what motivates", str "career goals",
       str "where do you see yourself"])
  , (str "culture",
      [str "work environment", str "company culture", str "values",
       str "work-life", str "collaboration", str "remote work"])
  , (str "strengths",
      [str "strengths", str "weaknesses", str "best quality",
       str "areas for improvement", str "what are you good at"])
  ]

/-- `detectQuestionType(question)` (lines 91–103): lowercase the question,
return the first type one of whose patterns is a substring; default
`'general'`. -/
def detectQuestionType (question : Str) : Str :=
  let lowerQuestion := lowerStr question
  match questionTypes.find? (fun tp => tp.2.any (fun pat => jsIncludes lowerQuestion pat)) with
  | some tp => tp.1
  | none => str "general"

/-- `buildSystemPrompt()` (lines 109–137). -/
def buildSystemPrompt : Str :=
  str "You are an expert career coach helping a job candidate write authentic, compelling answers to job application questions.\n\nCRITICAL INSTRUCTIONS:\n1. You ARE the candidate. Write in first person as if you are them.\n2. Base your answers primarily on the CV provided, but you may use reasonable professional inference.\n3. NEVER invent specific facts: employers, job titles, degrees, certifications, dates, or metrics not in the CV.\n4. You MAY infer motivations, reasoning, soft skills, and professional approach based on CV patterns.\n5. Sound human and genuine - avoid corporate buzzwords and AI-speak.\n6. Avoid recency bias: do NOT default to the most recent role. Select the BEST evidence from anywhere in the CV that fits the question.\n\nANTI-AI PATTERNS TO AVOID:\n- Starting with \"I'm excited to...\" or \"I'm passionate about...\"\n- Using \"leverage\" as a verb\n- Phrases like \"proven track record\" or \"results-driven professional\"\n- Overusing \"I believe\" or \"I feel\"\n- Generic statements that could apply to anyone\n- Overly formal or robotic language\n- Lists of buzzwords without substance\n\nGOOD PATTERNS:\n- Specific examples from the CV with concrete details\n- Natural conversational flow\n- Honest reflection on experience\n- Connecting past experience to the question's context\n- Showing genuine interest without being sycophantic\n\nThe answer should feel like something the candidate would naturally write themselves - not too polished, not too casual, but authentic and confident."

/-- `buildCVContext(cvData, questionType)` (lines 145–190). -/
def buildCVContext (cvData : CVData) (_questionType : Str) : Str :=
  str "## CANDIDATE CV DATA\n\n"
  ++ (if cvData.summary.isEmpty then []
      else str "### Professional Summary\n" ++ cvData.summary ++ str "\n\n")
  ++ (if 0 < cvData.experience.length then
        str "### Work Experience\n"
        ++ cvData.experience.foldl (fun acc exp =>
             acc ++ str "**" ++ exp.title ++ str "** at **" ++ exp.company
               ++ str "** (" ++ exp.dates ++ str ")\n"
               ++ (exp.responsibilities.take 5).foldl
                    (fun a r => a ++ str "- " ++ r ++ str "\n") []
               ++ str "\n") []
      else [])
  ++ (if 0 < cvData.skills.length then
        str "### Skills\n" ++ List.intercalate (str ", ") cvData.skills
          ++ str "\n\n"
      else [])
  ++ (if 0 < cvData.achievements.length then
        str "### Key Achievements\n"
        ++ (cvData.achievements.take 5).foldl
             (fun a x => a ++ str "- " ++ x ++ str "\n") []
        ++ str "\n"
      else [])
  ++ (if 0 < cvData.education.length then
        str "### Education\n"
        ++ cvData.education.foldl (fun acc edu =>
             acc ++ str "- " ++ edu.degree ++ str " from " ++ edu.institution
               ++ str " (" ++ edu.dates ++ str ")\n") []
        ++ str "\n"
      else [])
  ++ (if 0 < cvData.certifications.length then
        str "### Certifications\n" ++ List.intercalate (str ", ") cvData.certifications
          ++ str "\n\n"
      else [])

/-- `buildTypeInstructions(questionType)` (lines 197–228). -/
def buildTypeInstructions (questionType : Str) : Str :=
  if questionType = str "cover_letter" then
    str "This is a COVER LETTER request. Write a real cover letter (not a paragraph answer).\n\nFormat:\n- \"Dear Hiring Manager,\" (or \"Dear [Company] team,\" if company is known)\n- 1st paragraph: specific hook showing you understand the role and why you fit (no generic hype)\n- 2nd–3rd paragraphs: map 3 key job requirements to concrete evidence from DIFFERENT parts of the CV when possible (older roles/projects are valid)\n- Final paragraph: close confidently, mention interest in discussing, and add a simple sign-off\n- End with: \"Sincerely,\" and the candidate name as \"[Your Name]\"\n\nRules:\n- Must reference at least 3 specific requirements/responsibilities from the job description when provided\n- Must NOT invent employers, degrees, dates, or metrics not in the CV\n- Avoid buzzwords and \"AI voice\""
  else if questionType = str "behavioral" then
    str "This is a BEHAVIORAL question. Use the STAR method implicitly (Situation, Task, Action, Result) without making it obvious. Draw from specific experiences in the CV. Include concrete details and outcomes where available."
  else if questionType = str "technical" then
    str "This is a TECHNICAL question. Reference specific technologies, tools, or methodologies from the CV. Be honest about proficiency levels. It's okay to mention related experience even if not an exact match."
  else if questionType = str "leadership" then
    str "This is a LEADERSHIP question. Focus on team management, mentorship, or project leadership examples from the CV. Highlight collaborative approaches and outcomes achieved through others."
  else if questionType = str "motivation" then
    str "This is a MOTIVATION question. Connect genuine interests to the role based on your career trajectory across the CV (not just the most recent role). Be specific about what attracts you - avoid generic enthusiasm. Tie motivations to concrete skills and examples."
  else if questionType = str "culture" then
    str "This is a CULTURE FIT question. Draw from work environment preferences that can be reasonably inferred from the CV (startup vs enterprise experience, team sizes, remote/on-site patterns). Be genuine about working style."
  else if questionType = str "strengths" then
    str "This is a STRENGTHS/WEAKNESSES question. For strengths, point to evidence in the CV. For weaknesses, be honest but strategic - mention something genuine and how you're addressing it. Avoid clichéd \"weakness\" answers."
  else
    str "Answer thoughtfully based on the CV content. Be specific where possible, and professional but natural in tone."

/-- `buildJobContext(jobDescription, jobTitle, company)` (lines 245–278).
`extractKeyRequirements` (lines 285–320, a battery of unanchored
`.{10,60}` regexes over the description lines) is kept abstract as a
parameter: no claim depends on which requirement strings it yields. -/
def buildJobContext (extractKeyRequirements : Str → List Str)
    (jobDescription jobTitle company : Option Str) : Str :=
  match strTruthy jobDescription with
  | none => []
  | some jd =>
    str "## TARGET JOB\n\n"
    ++ (match strTruthy jobTitle, strTruthy company with
        | none, none => []
        | jt, co =>
          str "**Position:** "
          ++ (match jt with | some t => t | none => str "Not specified")
          ++ (match co with | some c => str " at **" ++ c ++ str "**" | none => [])
          ++ str "\n\n")
    ++ str "### Job Description\n"
    ++ jd.take 6000
    ++ (if 6000 < jd.length then str "\n[...truncated for length...]" else [])
    ++ str "\n\n"
    ++ (let requirements := extractKeyRequirements jd
        if 0 < requirements.length then
          str "### Key Requirements to Address\n"
          ++ (requirements.take 8).foldl
               (fun a r => a ++ str "- " ++ r ++ str "\n") []
          ++ str "\n"
        else [])

/-- One position of
`/why\s+(do\s+you\s+want|you\s+want)\s+to\s+(join|work\s+at|work\s+with)/i`. -/
def whyWantAt (s : Str) : Bool :=
  (let r := (stripLitCI (str "why") s).bind wsDrop1
   let mid := ((((r.bind (stripLitCI (str "do"))).bind wsDrop1).bind
                  (stripLitCI (str "you"))).bind wsDrop1).bind
                (stripLitCI (str "want"))
              <|> ((r.bind (stripLitCI (str "you"))).bind wsDrop1).bind
                (stripLitCI (str "want"))
   let tail := ((mid.bind wsDrop1).bind (stripLitCI (str "to"))).bind wsDrop1
   (tail.bind (stripLitCI (str "join"))
    <|> ((tail.bind (stripLitCI (str "work"))).bind wsDrop1).bind
          (stripLitCI (str "at"))
    <|> ((tail.bind (stripLitCI (str "work"))).bind wsDrop1).bind
          (stripLitCI (str "with")))).isSome

/-- One position of `/what\s+draws\s+you\s+to/i`. -/
def whatDrawsAt (s : Str) : Bool :=
  ((((((stripLitCI (str "what") s).bind wsDrop1).bind
      (stripLitCI (str "draws"))).bind wsDrop1).bind
      (stripLitCI (str "you"))).bind wsDrop1).bind
      (stripLitCI (str "to")) |>.isSome

/-- One position of `/why\s+(this|our)\s+company/i`. -/
def whyThisCompanyAt (s : Str) : Bool :=
  (let r := (stripLitCI (str "why") s).bind wsDrop1
   let mid := r.bind (stripLitCI (str "this")) <|> r.bind (stripLitCI (str "our"))
   ((mid.bind wsDrop1).bind (stripLitCI (str "company")))).isSome

/-- Unanchored `RegExp.test`: try the anchored matcher at every suffix. -/
def anywhere (p : Str → Bool) : Str → Bool
  | [] => p []
  | c :: t => p (c :: t) || anywhere p t

/-- `isWhyCompany` (prompt-builder.js lines 339–342). -/
def isWhyCompany (question : Str) : Bool :=
  anywhere whyWantAt question || anywhere whatDrawsAt question
    || anywhere whyThisCompanyAt question

/-- `buildPrompt`'s metadata record. -/
structure PromptMetadata where
  questionType : Str
  length : Str
  options : BuildOptions
  hasJobContext : Bool

/-- `buildPrompt`'s return value. -/
structure PromptResult where
  systemPrompt : Str
  userPrompt : Str
  metadata : PromptMetadata

/-- `buildPrompt(cvData, question, length, options)`
(prompt-builder.js lines 322–380). -/
def buildPrompt (extractKeyRequirements : Str → List Str) (cvData : CVData)
    (question : Str) (length : Str) (options : BuildOptions) : PromptResult :=
  let questionType := detectQuestionType question
  let lengthSpec := (responseLengths length).getD ⟨str "100-150", str "4-6"⟩
  let effectiveLengthSpec :=
    if questionType = str "cover_letter" then
      (coverLetterLengths length).getD ⟨str "250-350", str "10-16"⟩
    else lengthSpec
  let systemPrompt := buildSystemPrompt
  let cvContext := buildCVContext cvData questionType
  let jobContext := buildJobContext extractKeyRequirements options.jobDescription
    options.jobTitle options.company
  let typeInstructions := buildTypeInstructions questionType
  let jdBlock :=
    match strTruthy options.jobDescription with
    | some _ =>
      str "\nIMPORTANT: Tailor your answer to the specific job description provided. Reference relevant requirements, technologies, or responsibilities mentioned in the job posting where they align with your experience. Show that you understand what the employer is looking for.\n"
      ++ (if questionType = str "cover_letter" then
            str "For a cover letter, you MUST explicitly connect job requirements to CV evidence (not generic claims)."
          else [])
      ++ str "\n"
    | none => []
  let whyBlock :=
    if questionType = str "motivation" ∧ isWhyCompany question = true then
      str "\n"
      ++ (match strTruthy options.jobDescription with
          | some _ =>
            str "FOR THIS \"WHY COMPANY\" QUESTION, you MUST use BOTH the job description and the CV:"
          | none =>
            str "FOR THIS \"WHY COMPANY\" QUESTION, use the CV and any company/job context provided:")
      ++ str "\n- Start with 1–2 sentences showing you understand what the company/team is building (use the job description language if available).\n- Then map 2–3 specific job needs/requirements to 2–3 concrete examples from DIFFERENT parts of the CV when possible.\n- If only one role is relevant, use that role plus another relevant project/skill/achievement/education example from elsewhere in the CV.\n- End with a grounded reason this role is a logical next step based on your trajectory (no generic excitement).\n"
    else []
  let userPrompt :=
    cvContext ++ str "\n"
    ++ jobContext ++ str "\n## QUESTION TYPE\n"
    ++ upperStr questionType ++ str "\n\n## SPECIFIC INSTRUCTIONS\n"
    ++ typeInstructions ++ str "\n"
    ++ jdBlock ++ str "\n"
    ++ whyBlock ++ str "\n## RESPONSE LENGTH\nWrite approximately "
    ++ effectiveLengthSpec.words ++ str " words ("
    ++ effectiveLengthSpec.sentences ++ str " sentences).\n\n## THE QUESTION\n"
    ++ question
    ++ str "\n\nWrite the answer now, in first person, as the candidate. Do not include any preamble or meta-commentary."
  { systemPrompt := systemPrompt
    userPrompt := userPrompt
    metadata :=
      { questionType := questionType
        length := length
        options := options
        hasJobContext := (strTruthy options.jobDescription).isSome } }

theorem jsIncludes_append_of_right (a b needle : Str)
    (h : jsIncludes b needle = true) : jsIncludes (a ++ b) needle = true := by
  have := jsIncludes_mono a b [] needle h
  simpa using this

theorem jsIncludes_append_of_left (a b needle : Str)
    (h : jsIncludes a needle = true) : jsIncludes (a ++ b) needle = true := by
  have := jsIncludes_mono [] a b needle h
  simpa using this

/-- **C7** (§8: cover-letter question with `length="short"` → the built
`userPrompt` instructs a 150–220 word target — a scale distinct from the
50–80 word short target of non-letter answers — and requires a "Dear"
greeting): for every question classified `cover_letter`, the shared
prompt builder's short cover-letter `userPrompt` contains
"Write approximately 150-220 words" and the "Dear" greeting requirement,
and the short cover-letter scale (150-220) differs from the short
non-letter scale (50-80). -/
theorem c7_cover_letter_short_prompt (extractKeyRequirements : Str → List Str)
    (cvData : CVData) (question : Str) (options : BuildOptions)
    (hq : detectQuestionType question = str "cover_letter") :
    jsIncludes
      (buildPrompt extractKeyRequirements cvData question (str "short") options).userPrompt
      (str "Write approximately 150-220 words") = true
    ∧ jsIncludes
      (buildPrompt extractKeyRequirements cvData question (str "short") options).userPrompt
      (str "Dear") = true
    ∧ coverLetterLengths (str "short") = some ⟨str "150-220", str "6-10"⟩
    ∧ responseLengths (str "short") = some ⟨str "50-80", str "2-3"⟩
    ∧ (str "150-220" : Str) ≠ str "50-80" := by
  have hceq : ((str "cover_letter" : Str) = str "cover_letter") = True := by simp
  have hcmot : ((str "cover_letter" : Str) = str "motivation") = False :=
    eq_false (by decide)
  have hcls : coverLetterLengths (str "short")
      = some ⟨str "150-220", str "6-10"⟩ := by decide
  refine ⟨?_, ?_, by decide, by decide, by decide⟩
  · simp only [buildPrompt, hq, hceq, hcmot, if_true, ite_true, false_and,
      if_false, ite_false, hcls, Option.getD_some]
    apply jsIncludes_append_of_left
    apply jsIncludes_append_of_left
    apply jsIncludes_append_of_left
    apply jsIncludes_append_of_left
    rw [List.append_assoc, List.append_assoc]
    apply jsIncludes_append_of_right
    decide
  · simp only [buildPrompt, hq, hceq, hcmot, if_true, ite_true, false_and,
      if_false, ite_false, hcls, Option.getD_some]
    apply jsIncludes_append_of_left
    apply jsIncludes_append_of_left
    apply jsIncludes_append_of_left
    apply jsIncludes_append_of_left
    apply jsIncludes_append_of_left
    apply jsIncludes_append_of_left
    apply jsIncludes_append_of_left
    apply jsIncludes_append_of_left
    apply jsIncludes_append_of_left
    apply jsIncludes_append_of_left
    apply jsIncludes_append_of_left
    apply jsIncludes_append_of_right
    decide

/-- An empty parsed CV. -/
def emptyCVData : CVData :=
  { summary := [], experience := [], skills := [], achievements := [],
    education := [], certifications := [] }

/-- No job-context options. -/
def noOptions : BuildOptions :=
  { jobTitle := none, company := none, jobDescription := none }

/-- Witness for `c7_cover_letter_short_prompt` at question "Cover letter". -/
theorem c7_cover_letter_short_prompt_witness :
    jsIncludes
      (buildPrompt (fun _ => []) emptyCVData (str "Cover letter") (str "short")
        noOptions).userPrompt
      (str "Write approximately 150-220 words") = true
    ∧ jsIncludes
      (buildPrompt (fun _ => []) emptyCVData (str "Cover letter") (str "short")
        noOptions).userPrompt
      (str "Dear") = true := by
  have h := c7_cover_letter_short_prompt (fun _ => []) emptyCVData
    (str "Cover letter") noOptions (by decide)
  exact ⟨h.1, h.2.1⟩
